import Mathlib

/-!
Verification of the Dexter BRS/MDS scoring core.

Shallow embedding conventions:
* JS numbers are modelled as `ℚ`; `null`/`undefined`/NaN field values are
  modelled as `Option ℚ` (`none`).
* Dates: `new Date(s).getTime()` is modelled by an abstract parse function
  `pd : String → Option Int` (milliseconds since epoch); an invalid date is
  `none`.  Concrete examples instantiate `pd` with explicit tables.
* `Math.sqrt v <= c` (for `v >= 0`) is modelled exactly by
  `0 <= c ∧ v <= c^2` (`sqrtLe`); the `stdev` utility therefore returns the
  variance (square of the standard deviation) and every comparison site uses
  `sqrtLe`.
* `Math.exp(-ln 2 * age / halfLife)` (recency decay) is transcendental; the
  narrative classifier takes the decay as an explicit function argument
  `decayFn : ℚ → ℚ → ℚ` (ageDays, halfLifeDays ↦ decay factor).  Theorems
  that need its value at age 0 assume `decayFn 0 h = 1`, which holds for the
  real exponential.
* `Array.prototype.sort` with the report-period comparator: the comparator
  returns 0 when either date fails to parse, exactly as in the source, and
  is therefore inconsistent when parseable and unparseable dates are mixed;
  ECMA-262 then leaves the order implementation-defined.  The pipeline model
  (`sortByReportPeriod`) commits to a stable insertion sort, which agrees
  with every conforming engine whenever the comparator is consistent on the
  input (in particular when every date parses, the hypothesis under which
  the sort order is used).  The sort as actually executed by the
  repository's documented Bun runtime — JavaScriptCore's stable bottom-up
  merge sort (WebKit `builtins/ArrayPrototype.js`, `sortMergeSort`) — is
  modelled separately (`jscSortByReportPeriod`) and is used to settle the
  sort-order claim on mixed inputs.
-/

namespace Dexter

/-- JS `Math.round`: round half toward positive infinity. -/
def jsRound (q : ℚ) : ℚ := (⌊q + 1/2⌋ : ℤ)

/-- JS `Number(x.toFixed(2))`: round to 2 decimals, ties toward the larger value. -/
def toFixed2 (q : ℚ) : ℚ := (⌊q * 100 + 1/2⌋ : ℤ) / 100

/-- Exact model of `Math.sqrt v <= c` for `v >= 0` (the variance). -/
def sqrtLe (v c : ℚ) : Bool := decide (0 ≤ c) && decide (v ≤ c^2)

/-- Source `clamp` from series.ts: `Math.max(min, Math.min(max, value))`. -/
def clamp (value lo hi : ℚ) : ℚ := max lo (min hi value)

/-- Source `Math.min(...arr)` over a non-empty list (used on winsorized peers). -/
def listMin (l : List ℚ) (dflt : ℚ) : ℚ := l.foldl min (l.headD dflt)

/-- Source `Math.max(...arr)` over a non-empty list. -/
def listMax (l : List ℚ) (dflt : ℚ) : ℚ := l.foldl max (l.headD dflt)

/-! ## series.ts -/

/-- One output point of `rollingTtmSeries` / a generic dated value point. -/
structure SeriesPoint where
  report_period : String
  value : ℚ
deriving DecidableEq, Repr

section Series

variable (pd : String → Option Int)

/-- The comparator of `sortByReportPeriod` as a "less or equal" test: the JS
comparator returns 0 (kept in place by a stable sort) when either date fails
to parse, otherwise compares the parsed times. -/
def jsDateLe (rp : α → String) (a b : α) : Bool :=
  match pd (rp a), pd (rp b) with
  | some da, some db => decide (da ≤ db)
  | _, _ => true

/-- Stable insertion used to model the engine's stable sort. -/
def jsOrderedInsert (rp : α → String) (a : α) : List α → List α
  | [] => [a]
  | b :: l => if jsDateLe pd rp a b then a :: b :: l else b :: jsOrderedInsert rp a l

/-- Source `sortByReportPeriod` as a stable insertion sort (comparator 0 when
either date is unparseable; with an inconsistent comparator the engine order
is implementation-defined — see `jscSortByReportPeriod` for the model of the
documented runtime, with which this one agrees whenever the comparator is
consistent on the input). -/
def sortByReportPeriod (rp : α → String) : List α → List α
  | [] => []
  | a :: l => jsOrderedInsert pd rp a (sortByReportPeriod rp l)

end Series

/-- Ascending insertion for plain numeric sorts (`(a, b) => a - b`). -/
def insertQ (a : ℚ) : List ℚ → List ℚ
  | [] => [a]
  | b :: l => if a ≤ b then a :: b :: l else b :: insertQ a l

/-- Source `[...values].sort((a, b) => a - b)`. -/
def sortQ : List ℚ → List ℚ
  | [] => []
  | a :: l => insertQ a (sortQ l)

/-- Source `median` from series.ts. -/
def median (values : List ℚ) : Option ℚ :=
  if values.length = 0 then none else
  let sorted := sortQ values
  let mid := values.length / 2
  if values.length % 2 = 0 then
    some ((sorted.getD (mid - 1) 0 + sorted.getD mid 0) / 2)
  else
    some (sorted.getD mid 0)

/-- Source `percentile(values, p)` with linear interpolation between order statistics. -/
def percentile (values : List ℚ) (p : ℚ) : Option ℚ :=
  if values.length = 0 then none else
  let sorted := sortQ values
  let idx : ℚ := (values.length - 1 : ℚ) * p
  let lower : ℤ := ⌊idx⌋
  let upper : ℤ := ⌈idx⌉
  if lower = upper then some (sorted.getD lower.toNat 0)
  else
    let weight : ℚ := idx - lower
    some (sorted.getD lower.toNat 0 * (1 - weight) + sorted.getD upper.toNat 0 * weight)

/-- Source `percentileRank`: fraction of the population `<=` the probed value. -/
def percentileRank (values : List ℚ) (value : ℚ) : Option ℚ :=
  if values.length = 0 then none else
  some (((values.filter (fun v => v ≤ value)).length : ℚ) / values.length)

/-- Source `stdev` from series.ts, modelled by its square: the population variance
(divide by N).  Comparison sites use `sqrtLe`. -/
def stdevSq (values : List ℚ) : Option ℚ :=
  if values.length = 0 then none else
  let avg : ℚ := values.foldl (· + ·) 0 / values.length
  some (values.foldl (fun s v => s + (v - avg)^2) (0 : ℚ) / values.length)

/-- Source `slope`: endpoint slope `(last - first) / (N - 1)`. -/
def slope (values : List ℚ) : Option ℚ :=
  if values.length < 2 then none else
  some ((values.getLastD 0 - values.headD 0) / (values.length - 1 : ℚ))

/-- Source `sum`: `null` if any input is null/undefined/NaN, else the total. -/
def jsSum (values : List (Option ℚ)) : Option ℚ :=
  if values.any (fun v => v.isNone) then none
  else some ((values.map (fun v => v.getD 0)).foldl (· + ·) 0)

section SeriesDated

variable (pd : String → Option Int)

/-- Source `rollingTtmSeries`: for each index `i >= 3` of the date-sorted rows, emit
the sum of the window `i-3..i` unless that sum is null. -/
def rollingTtmSeries (rp : α → String) (rows : List α) (getValue : α → Option ℚ) :
    List SeriesPoint :=
  let sorted := sortByReportPeriod pd rp rows
  (List.range sorted.length).filterMap fun i =>
    if i < 3 then none else
    match sorted[i]? with
    | none => none
    | some row =>
      match jsSum (((sorted.drop (i - 3)).take 4).map getValue) with
      | some total => some ⟨rp row, total⟩
      | none => none

/-- Source `nearestByDate`: chronologically closest row within `maxDaysDiff` days;
first-found closest wins (scan in date-sorted order). -/
def nearestByDate (rp : α → String) (rows : List α) (targetDate : Int)
    (maxDaysDiff : ℚ) : Option α :=
  let sorted := sortByReportPeriod pd rp rows
  let best := sorted.foldl
    (fun (best : Option (α × ℚ)) row =>
      match pd (rp row) with
      | none => best
      | some t =>
        let diff : ℚ := |((t : ℚ) - (targetDate : ℚ))| / 86400000
        if diff > maxDaysDiff then best
        else match best with
          | none => some (row, diff)
          | some (_, bd) => if diff < bd then some (row, diff) else best)
    none
  best.map Prod.fst

end SeriesDated

/-! ## brs.ts (the BRS engine) -/

structure CompanyFacts where
  ticker : String
  sector : Option String := none
  industry : Option String := none
deriving DecidableEq, Repr

structure IncomeStatement where
  report_period : String
  revenue : Option ℚ := none
  gross_profit : Option ℚ := none
  ebit : Option ℚ := none
  interest_expense : Option ℚ := none
deriving DecidableEq, Repr

structure BalanceSheet where
  report_period : String
  total_debt : Option ℚ := none
  cash_and_equivalents : Option ℚ := none
deriving DecidableEq, Repr

structure CashFlowStatement where
  report_period : String
  depreciation_and_amortization : Option ℚ := none
  net_cash_flow_from_operations : Option ℚ := none
  free_cash_flow : Option ℚ := none
  capital_expenditure : Option ℚ := none
  dividends_and_other_cash_distributions : Option ℚ := none
  issuance_or_purchase_of_equity_shares : Option ℚ := none
  share_based_compensation : Option ℚ := none
deriving DecidableEq, Repr

structure MetricsPoint where
  report_period : String
  /-- source field `enterprise_value_to_ebitda_ratio` -/
  enterprise_value_to_ebitda : Option ℚ := none
  free_cash_flow_yield : Option ℚ := none
  return_on_invested_capital : Option ℚ := none
  interest_coverage : Option ℚ := none
  gross_margin : Option ℚ := none
  market_cap : Option ℚ := none
  enterprise_value : Option ℚ := none
deriving DecidableEq, Repr

structure UniverseMetric where
  ticker : String
  sector : Option String := none
  industry : Option String := none
  /-- Source `number | null | undefined` collapsed to `Option ℚ` -/
  ev_to_ebitda : Option ℚ := none
  roic_series : Option (List SeriesPoint) := none
deriving DecidableEq, Repr

structure MedianBands where
  cheap : ℚ
  mid : ℚ
  rich : ℚ
deriving DecidableEq, Repr

structure BrsConfig where
  min_peers : ℚ
  gm_stdev_threshold : ℚ
  low_history_gm_multiplier : ℚ
  winsor_low : ℚ
  winsor_high : ℚ
  median_bands : MedianBands
deriving DecidableEq, Repr

def DEFAULT_BRS_CONFIG : BrsConfig :=
  { min_peers := 15
    gm_stdev_threshold := 2/100
    low_history_gm_multiplier := 1/2
    winsor_low := 5/100
    winsor_high := 95/100
    median_bands := { cheap := 7/10, mid := 1, rich := 13/10 } }

/-- Source `Partial<BrsConfig>`: every key optional; shallow merge over the defaults. -/
structure BrsConfigOverride where
  min_peers : Option ℚ := none
  gm_stdev_threshold : Option ℚ := none
  low_history_gm_multiplier : Option ℚ := none
  winsor_low : Option ℚ := none
  winsor_high : Option ℚ := none
  median_bands : Option MedianBands := none
deriving DecidableEq, Repr

/-- Source `{ ...DEFAULT_BRS_CONFIG, ...(inputs.config ?? {}) }` -/
def mergeBrsConfig (o : Option BrsConfigOverride) : BrsConfig :=
  match o with
  | none => DEFAULT_BRS_CONFIG
  | some o =>
    { min_peers := o.min_peers.getD DEFAULT_BRS_CONFIG.min_peers
      gm_stdev_threshold := o.gm_stdev_threshold.getD DEFAULT_BRS_CONFIG.gm_stdev_threshold
      low_history_gm_multiplier :=
        o.low_history_gm_multiplier.getD DEFAULT_BRS_CONFIG.low_history_gm_multiplier
      winsor_low := o.winsor_low.getD DEFAULT_BRS_CONFIG.winsor_low
      winsor_high := o.winsor_high.getD DEFAULT_BRS_CONFIG.winsor_high
      median_bands := o.median_bands.getD DEFAULT_BRS_CONFIG.median_bands }

structure BrsInputs where
  ticker : String
  company_facts : List CompanyFacts
  income_statements : List IncomeStatement
  balance_sheets : List BalanceSheet
  cash_flow_statements : List CashFlowStatement
  metrics_history : List MetricsPoint
  universe_metrics : List UniverseMetric
  config : Option BrsConfigOverride := none
deriving DecidableEq, Repr

structure BrsScores where
  valuation_sanity : ℚ
  cash_truth_quality : ℚ
  capital_efficiency : ℚ
  balance_sheet_risk : ℚ
  durability_alignment : ℚ
  total : ℚ
deriving DecidableEq, Repr

structure BrsSubscores where
  ev_to_ebitda : ℚ
  fcf_yield : ℚ
  cash_conversion : ℚ
  fcf_conversion : ℚ
  roic_vs_wacc : ℚ
  incremental_roic : ℚ
  net_debt_to_ebitda : ℚ
  interest_coverage : ℚ
  gross_margin_stability : ℚ
  shareholder_yield : ℚ
  sbc_to_fcf : ℚ
deriving DecidableEq, Repr

structure BrsResult where
  ticker : String
  /-- the resolved as-of date (epoch ms); the source serializes it to ISO -/
  asof_date : Option Int
  scores : BrsScores
  subscores : BrsSubscores
  warnings : List String
deriving DecidableEq, Repr

section Brs

variable (pd : String → Option Int)

/-- Source `latestReportDate`: parsed date of the last date-sorted row. -/
def latestReportDate (rp : α → String) (rows : List α) : Option Int :=
  match (sortByReportPeriod pd rp rows).getLast? with
  | none => none
  | some last => pd (rp last)

/-- Source `resolveAsofDate` (BRS): latest period present in all three statements,
else latest of any with an `asof_misalignment` warning.  Returns the date and
the warnings pushed. -/
def resolveAsofDate (income : List IncomeStatement) (balance : List BalanceSheet)
    (cashflow : List CashFlowStatement) : Option Int × List String :=
  let incomeDates := (income.map (·.report_period)).eraseDups
  let balanceDates := balance.map (·.report_period)
  let cashDates := cashflow.map (·.report_period)
  let candidates := incomeDates.filter (fun d => balanceDates.contains d && cashDates.contains d)
  if candidates ≠ [] then
    let parsed := candidates.filterMap pd
    let sorted := sortQ (parsed.map (fun t => (t : ℚ)))
    (sorted.getLast?.map (fun q => ⌊q⌋), [])
  else
    ((latestReportDate pd (·.report_period) income).orElse fun _ =>
      (latestReportDate pd (·.report_period) balance).orElse fun _ =>
        latestReportDate pd (·.report_period) cashflow,
     ["asof_misalignment"])

/-- Source `lastNRows`: date-sorted rows at or before `asofDate` (unparseable dates
excluded), last `n` of them. -/
def lastNRows (rp : α → String) (rows : List α) (asofDate : Int) (n : ℕ) : List α :=
  let sorted := sortByReportPeriod pd rp rows
  let filtered := sorted.filter fun row =>
    match pd (rp row) with
    | some date => decide (date ≤ asofDate)
    | none => false
  filtered.drop (filtered.length - n)

/-- Source `sumTtm`: null-propagating sum over the trailing 4 rows; null if fewer
than 4 rows qualify. -/
def sumTtm (rp : α → String) (rows : List α) (asofDate : Int)
    (getValue : α → Option ℚ) : Option ℚ :=
  let slice := lastNRows pd rp rows asofDate 4
  if slice.length < 4 then none else jsSum (slice.map getValue)

end Brs

/-- Source `a && b ? a / b : null` for optional JS numbers: both present and truthy
(nonzero), else null. -/
def jsTruthyDiv (a b : Option ℚ) : Option ℚ :=
  match a, b with
  | some x, some y => if x ≠ 0 ∧ y ≠ 0 then some (x / y) else none
  | _, _ => none

/-- Source `scoreEvToEbitdaPercentile` (returns the score and warnings pushed). -/
def scoreEvToEbitdaPercentile (prv : Option ℚ) : ℚ × List String :=
  match prv with
  | none => (0, ["missing_peer_ev_to_ebitda"])
  | some r =>
    (if r ≤ 3/10 then 15 else if r ≤ 6/10 then 10 else if r ≤ 8/10 then 5 else 0, [])

/-- Source `scoreEvToEbitdaMedian`. -/
def scoreEvToEbitdaMedian (value medianValue : Option ℚ) (bands : MedianBands) :
    ℚ × List String :=
  match value, medianValue with
  | some v, some m =>
    if m = 0 then (0, ["missing_peer_ev_to_ebitda"])
    else
      let r := v / m
      (if r ≤ bands.cheap then 15 else if r ≤ bands.mid then 10
       else if r ≤ bands.rich then 5 else 0, [])
  | _, _ => (0, ["missing_peer_ev_to_ebitda"])

/-- Source `winsorize`. -/
def winsorize (values : List ℚ) (pLow pHigh : ℚ) : List ℚ :=
  match percentile values pLow, percentile values pHigh with
  | some low, some high => values.map (fun v => min high (max low v))
  | _, _ => values

/-- Source `scoreFcfYield`. -/
def scoreFcfYield (value : Option ℚ) : ℚ :=
  match value with
  | none => 0
  | some v => if v > 1/10 then 10 else if v ≥ 6/100 then 7 else if v ≥ 3/100 then 4 else 0

/-- Source `scoreCashConversion`. -/
def scoreCashConversion (value : Option ℚ) : ℚ :=
  match value with
  | none => 0
  | some v => if v > 9/10 then 10 else if v ≥ 7/10 then 7 else if v ≥ 1/2 then 3 else 0

/-- Source `scoreFcfConversion`. -/
def scoreFcfConversion (value : Option ℚ) : ℚ :=
  match value with
  | none => 0
  | some v => if v > 6/10 then 10 else if v ≥ 4/10 then 6 else if v ≥ 2/10 then 3 else 0

section Brs2

variable (pd : String → Option Int)

/-- Source `normalizeRoicSeries`: last 8 values in date order. -/
def normalizeRoicSeries (series : List SeriesPoint) : List ℚ :=
  let sorted := sortByReportPeriod pd (·.report_period) series
  (sorted.drop (sorted.length - 8)).map (·.value)

/-- the `growthFromSeries` closure of `scoreIncrementalRoic`: median YoY
(4-quarters-apart) growth of a series. -/
def growthFromSeries (series : List SeriesPoint) : Option ℚ :=
  let sorted := sortByReportPeriod pd (·.report_period) series
  let growths := (List.range sorted.length).filterMap fun i =>
    if i < 4 then none else
    match sorted[i]?, sorted[i-4]? with
    | some cur, some prev => if prev.value = 0 then none else some (cur.value / prev.value - 1)
    | _, _ => none
  median growths

/-- The growth banding of `scoreIncrementalRoic` (>15% → 10, ≥8% → 6, else 0;
0 when the growth is null). -/
def incrementalRoicScoreOf (growth : Option ℚ) : ℚ :=
  match growth with
  | none => 0
  | some g => if g > 15/100 then 10 else if g ≥ 8/100 then 6 else 0

/-- Source `scoreIncrementalRoic`. -/
def scoreIncrementalRoic (roicSeries ebitdaSeries : Option (List SeriesPoint)) :
    ℚ × List String :=
  let growth0 : Option ℚ := match roicSeries with
    | some s => growthFromSeries pd s
    | none => none
  let gw : Option ℚ × List String :=
    match growth0, ebitdaSeries with
    | none, some es =>
      match growthFromSeries pd es with
      | some g => (some g, ["incremental_roic_proxy_ebitda"])
      | none => (none, [])
    | g, _ => (g, [])
  (incrementalRoicScoreOf gw.1,
   if gw.1 = none then gw.2 ++ ["missing_incremental_roic"] else gw.2)

/-- Body of `scoreGrossMarginStability` after the slope and variance of the
truncated series are computed (n is the full series length). -/
def gmStabilityScoreOf (config : BrsConfig) (n : Nat) (sl sv : Option ℚ) :
    ℚ × List String :=
  match sl, sv with
  | some gmSlope, some gmVar =>
    let isStable := gmSlope ≥ 0 ∧ sqrtLe gmVar config.gm_stdev_threshold
    let score : ℚ := if isStable then 5 else 0
    if n < 8 then
      (jsRound (score * config.low_history_gm_multiplier), ["low_gross_margin_history"])
    else (score, [])
  | _, _ => (0, ["missing_gross_margin_history"])

/-- Source `scoreGrossMarginStability`. -/
def scoreGrossMarginStability (gmSeries : List ℚ) (config : BrsConfig) : ℚ × List String :=
  if gmSeries.length < 4 then (0, ["missing_gross_margin_history"]) else
  let seriesToUse := gmSeries.drop (gmSeries.length - 8)
  gmStabilityScoreOf config gmSeries.length (slope seriesToUse) (stdevSq seriesToUse)

/-- Source `buildGmSeries`: gross margin per quarter; zero or missing revenue or
gross profit (JS falsiness) excluded. -/
def buildGmSeries (income : List IncomeStatement) : List ℚ :=
  let sorted := sortByReportPeriod pd (·.report_period) income
  sorted.filterMap fun row =>
    match row.revenue, row.gross_profit with
    | some revenue, some gross =>
      if revenue ≠ 0 ∧ gross ≠ 0 then some (gross / revenue) else none
    | _, _ => none

end Brs2

/-- Model of `String.prototype.toUpperCase` (character-wise, evaluates in
the kernel unlike `String.toUpper`). -/
def jsToUpper (s : String) : String := ⟨s.data.map Char.toUpper⟩

/-- Source `resolveCompanyFacts`: case-insensitive ticker lookup. -/
def resolveCompanyFacts (ticker : String) (facts : List CompanyFacts) : Option CompanyFacts :=
  facts.find? (fun f => jsToUpper f.ticker == jsToUpper ticker)

inductive PeerLevel where
  /-- source string `'universe'` is `allUniverse` here (`universe` is a Lean keyword) -/
  | industry | sector | allUniverse | median
deriving DecidableEq, Repr

structure PeerSet where
  peers : List UniverseMetric
  level : PeerLevel
deriving DecidableEq, Repr

/-- The same-industry peer candidates of `resolvePeerSet`. -/
def peersByIndustry (ticker : String) (facts : List CompanyFacts)
    (univ : List UniverseMetric) : List UniverseMetric :=
  match (resolveCompanyFacts ticker facts).bind (fun c => c.industry) with
  | some ind => univ.filter (fun u => u.industry == some ind)
  | none => []

/-- The same-sector peer candidates of `resolvePeerSet`. -/
def peersBySector (ticker : String) (facts : List CompanyFacts)
    (univ : List UniverseMetric) : List UniverseMetric :=
  match (resolveCompanyFacts ticker facts).bind (fun c => c.sector) with
  | some sec => univ.filter (fun u => u.sector == some sec)
  | none => []

/-- Source `resolvePeerSet`: industry → sector → universe cascade with a median-only
fallback. -/
def resolvePeerSet (ticker : String) (facts : List CompanyFacts)
    (univ : List UniverseMetric) (minPeers : ℚ) : PeerSet :=
  let byIndustry := peersByIndustry ticker facts univ
  if (byIndustry.length : ℚ) ≥ minPeers then ⟨byIndustry, .industry⟩ else
  let bySector := peersBySector ticker facts univ
  if (bySector.length : ℚ) ≥ minPeers then ⟨bySector, .sector⟩ else
  if (univ.length : ℚ) ≥ minPeers then ⟨univ, .allUniverse⟩ else
  ⟨if bySector ≠ [] then bySector else univ, .median⟩

section Brs3

variable (pd : String → Option Int)

/-- Source `medianRoicFromPeers`. -/
def medianRoicFromPeers (peers : List UniverseMetric) : Option ℚ × List String :=
  let peerMedians := peers.filterMap fun peer =>
    match peer.roic_series with
    | none => none
    | some s => if s.isEmpty then none else median (normalizeRoicSeries pd s)
  match median peerMedians with
  | none => (none, ["missing_wacc_proxy"])
  | some m => (some m, [])

/-! Lifted intermediates of `computeBrs` (source `let`/`const` bindings). -/

def brsAsofPair (inputs : BrsInputs) : Option Int × List String :=
  resolveAsofDate pd inputs.income_statements inputs.balance_sheets inputs.cash_flow_statements

def brsAsofDate (inputs : BrsInputs) : Option Int := (brsAsofPair pd inputs).1

def brsMetricsAsOf (inputs : BrsInputs) : Option MetricsPoint :=
  match brsAsofDate pd inputs with
  | some d => nearestByDate pd (·.report_period) inputs.metrics_history d 5
  | none => none

def brsIncomeTtm (inputs : BrsInputs) (g : IncomeStatement → Option ℚ) : Option ℚ :=
  match brsAsofDate pd inputs with
  | some d => sumTtm pd (·.report_period) inputs.income_statements d g
  | none => none

def brsCashTtm (inputs : BrsInputs) (g : CashFlowStatement → Option ℚ) : Option ℚ :=
  match brsAsofDate pd inputs with
  | some d => sumTtm pd (·.report_period) inputs.cash_flow_statements d g
  | none => none

def brsRevenueTtm (inputs : BrsInputs) : Option ℚ := brsIncomeTtm pd inputs (·.revenue)

def brsGrossProfitTtm (inputs : BrsInputs) : Option ℚ := brsIncomeTtm pd inputs (·.gross_profit)

def brsEbitTtm (inputs : BrsInputs) : Option ℚ := brsIncomeTtm pd inputs (·.ebit)

def brsInterestExpenseTtm (inputs : BrsInputs) : Option ℚ :=
  brsIncomeTtm pd inputs (·.interest_expense)

def brsDAndATtm (inputs : BrsInputs) : Option ℚ :=
  brsCashTtm pd inputs (·.depreciation_and_amortization)

def brsOcfTtm (inputs : BrsInputs) : Option ℚ :=
  brsCashTtm pd inputs (·.net_cash_flow_from_operations)

def brsFcfTtm (inputs : BrsInputs) : Option ℚ := brsCashTtm pd inputs (·.free_cash_flow)

def brsCapexTtm (inputs : BrsInputs) : Option ℚ := brsCashTtm pd inputs (·.capital_expenditure)

def brsDividendsTtm (inputs : BrsInputs) : Option ℚ :=
  brsCashTtm pd inputs (·.dividends_and_other_cash_distributions)

def brsBuybacksTtm (inputs : BrsInputs) : Option ℚ :=
  brsCashTtm pd inputs (·.issuance_or_purchase_of_equity_shares)

def brsSbcTtm (inputs : BrsInputs) : Option ℚ := brsCashTtm pd inputs (·.share_based_compensation)

def brsEbitdaTtm (inputs : BrsInputs) : Option ℚ :=
  match brsEbitTtm pd inputs, brsDAndATtm pd inputs with
  | some e, some d => some (e + d)
  | _, _ => none

def brsBalanceAsOf (inputs : BrsInputs) : Option BalanceSheet :=
  match brsAsofDate pd inputs with
  | some d => nearestByDate pd (·.report_period) inputs.balance_sheets d 5
  | none => none

def brsNetDebt (inputs : BrsInputs) : Option ℚ :=
  match brsBalanceAsOf pd inputs with
  | some b =>
    match b.total_debt, b.cash_and_equivalents with
    | some td, some cash => some (td - cash)
    | _, _ => none
  | none => none

def brsMarketCap (inputs : BrsInputs) : Option ℚ :=
  (brsMetricsAsOf pd inputs).bind (·.market_cap)

def brsEvToEbitda (inputs : BrsInputs) : Option ℚ :=
  match brsMetricsAsOf pd inputs with
  | none => none
  | some m =>
    match m.enterprise_value_to_ebitda with
    | some r => some r
    | none => jsTruthyDiv m.enterprise_value (brsEbitdaTtm pd inputs)

def brsFcfYield (inputs : BrsInputs) : Option ℚ :=
  match (brsMetricsAsOf pd inputs).bind (·.free_cash_flow_yield) with
  | some v => some v
  | none => jsTruthyDiv (brsFcfTtm pd inputs) (brsMarketCap pd inputs)

def brsCashConversion (inputs : BrsInputs) : Option ℚ :=
  jsTruthyDiv (brsOcfTtm pd inputs) (brsEbitdaTtm pd inputs)

def brsFcfConversion (inputs : BrsInputs) : Option ℚ :=
  jsTruthyDiv (brsFcfTtm pd inputs) (brsEbitdaTtm pd inputs)

def brsRoic (inputs : BrsInputs) : Option ℚ :=
  (brsMetricsAsOf pd inputs).bind (·.return_on_invested_capital)

def brsRoicSeries (inputs : BrsInputs) : List SeriesPoint :=
  rollingTtmSeries pd (·.report_period) inputs.metrics_history (·.return_on_invested_capital)

def brsPeerInfo (inputs : BrsInputs) : PeerSet :=
  resolvePeerSet inputs.ticker inputs.company_facts inputs.universe_metrics
    (mergeBrsConfig inputs.config).min_peers

def brsPeerValues (inputs : BrsInputs) : List ℚ :=
  (brsPeerInfo inputs).peers.filterMap (·.ev_to_ebitda)

def brsWinsorizedPeers (inputs : BrsInputs) : List ℚ :=
  winsorize (brsPeerValues inputs) (mergeBrsConfig inputs.config).winsor_low
    (mergeBrsConfig inputs.config).winsor_high

def brsEvPercentile (inputs : BrsInputs) : Option ℚ :=
  match brsEvToEbitda pd inputs with
  | some v =>
    let w := brsWinsorizedPeers inputs
    if w.length > 0 then percentileRank w (clamp v (listMin w 0) (listMax w 0)) else none
  | none => none

/-- ev score together with the warnings of its branch (including
`peer_set_too_small` on the median fallback). -/
def brsEvScorePair (inputs : BrsInputs) : ℚ × List String :=
  if (brsPeerInfo inputs).level = .median then
    ((scoreEvToEbitdaMedian (brsEvToEbitda pd inputs) (median (brsPeerValues inputs))
        (mergeBrsConfig inputs.config).median_bands).1,
     "peer_set_too_small" :: (scoreEvToEbitdaMedian (brsEvToEbitda pd inputs)
        (median (brsPeerValues inputs)) (mergeBrsConfig inputs.config).median_bands).2)
  else
    scoreEvToEbitdaPercentile (brsEvPercentile pd inputs)

def brsWaccProxyPair (inputs : BrsInputs) : Option ℚ × List String :=
  medianRoicFromPeers pd
    (if (brsPeerInfo inputs).level = .sector ∨ (brsPeerInfo inputs).level = .industry then
      (brsPeerInfo inputs).peers
    else inputs.universe_metrics)

def brsRoicVsWaccScore (inputs : BrsInputs) : ℚ :=
  match brsRoic pd inputs, (brsWaccProxyPair pd inputs).1 with
  | some r, some w => if r ≥ w + 5/100 then 15 else if r ≥ w then 10 else 0
  | _, _ => 0

def brsEbitdaSeries (inputs : BrsInputs) : List SeriesPoint :=
  let ebitTtmSeries := rollingTtmSeries pd (·.report_period) inputs.income_statements (·.ebit)
  let dAndATtmSeries :=
    rollingTtmSeries pd (·.report_period) inputs.cash_flow_statements
      (·.depreciation_and_amortization)
  ebitTtmSeries.filterMap fun row =>
    match (dAndATtmSeries.find? (fun item => item.report_period == row.report_period)).map (·.value) with
    | some dandA => some ⟨row.report_period, row.value + dandA⟩
    | none => none

def brsIncrementalRoicPair (inputs : BrsInputs) : ℚ × List String :=
  scoreIncrementalRoic pd
    (if (brsRoicSeries pd inputs).length > 0 then some (brsRoicSeries pd inputs) else none)
    (if (brsEbitdaSeries pd inputs).length > 0 then some (brsEbitdaSeries pd inputs) else none)

def brsNetDebtToEbitda (inputs : BrsInputs) : Option ℚ :=
  match brsNetDebt pd inputs, brsEbitdaTtm pd inputs with
  | some nd, some e => if e ≠ 0 then some (nd / e) else none
  | _, _ => none

def brsNetDebtScore (inputs : BrsInputs) : ℚ :=
  match brsNetDebtToEbitda pd inputs with
  | none => 0
  | some v => if v < 2 then 10 else if v ≤ 4 then 5 else 0

def brsInterestCoverage (inputs : BrsInputs) : Option ℚ :=
  match (brsMetricsAsOf pd inputs).bind (·.interest_coverage) with
  | some v => some v
  | none => jsTruthyDiv (brsEbitTtm pd inputs) (brsInterestExpenseTtm pd inputs)

def brsInterestCoverageScore (inputs : BrsInputs) : ℚ :=
  match brsInterestCoverage pd inputs with
  | none => 0
  | some v => if v > 8 then 5 else if v ≥ 4 then 3 else 0

def brsGmSeries (inputs : BrsInputs) : List ℚ := buildGmSeries pd inputs.income_statements

def brsGrossMarginPair (inputs : BrsInputs) : ℚ × List String :=
  scoreGrossMarginStability (brsGmSeries pd inputs) (mergeBrsConfig inputs.config)

def brsShareholderYieldPair (inputs : BrsInputs) : ℚ × List String :=
  match brsDividendsTtm pd inputs, brsBuybacksTtm pd inputs, brsMarketCap pd inputs with
  | some dividends, some buybacks, some mc =>
    if mc ≠ 0 then
      let netBuybacks := -buybacks
      let shareholderYield := (dividends + netBuybacks) / mc
      (if shareholderYield > 5/100 then 5 else if shareholderYield ≥ 2/100 then 3 else 0, [])
    else (0, ["missing_shareholder_yield"])
  | _, _, _ => (0, ["missing_shareholder_yield"])

def brsSbcToFcfPair (inputs : BrsInputs) : ℚ × List String :=
  match brsSbcTtm pd inputs, brsFcfTtm pd inputs with
  | some sbc, some fcf =>
    if fcf ≠ 0 then
      let sbcRat := sbc / fcf
      (if sbcRat < 1/10 then 5 else if sbcRat ≤ 25/100 then 3 else 0, [])
    else (0, ["missing_sbc_or_fcf"])
  | _, _ => (0, ["missing_sbc_or_fcf"])

/-- the warnings list of `computeBrs`, in source push order. -/
def brsWarnings (inputs : BrsInputs) : List String :=
  (brsAsofPair pd inputs).2 ++
  (if brsAsofDate pd inputs = none then ["missing_asof_date"] else []) ++
  (if brsMarketCap pd inputs = none then ["missing_market_cap"] else []) ++
  (if brsFcfYield pd inputs = none then ["missing_fcf_yield"] else []) ++
  (if brsCashConversion pd inputs = none then ["missing_cash_conversion"] else []) ++
  (if brsFcfConversion pd inputs = none then ["missing_fcf_conversion"] else []) ++
  (if brsRoic pd inputs = none then ["missing_roic"] else []) ++
  (brsEvScorePair pd inputs).2 ++
  (brsWaccProxyPair pd inputs).2 ++
  (brsIncrementalRoicPair pd inputs).2 ++
  (if brsNetDebtToEbitda pd inputs = none then ["missing_net_debt"] else []) ++
  (if brsInterestCoverage pd inputs = none then ["missing_interest_coverage"] else []) ++
  (brsGrossMarginPair pd inputs).2 ++
  (brsShareholderYieldPair pd inputs).2 ++
  (brsSbcToFcfPair pd inputs).2

/-- Source `computeBrs`. -/
def computeBrs (inputs : BrsInputs) : BrsResult :=
  let evScore := (brsEvScorePair pd inputs).1
  let fcfYieldScore := scoreFcfYield (brsFcfYield pd inputs)
  let cashConversionScore := scoreCashConversion (brsCashConversion pd inputs)
  let fcfConversionScore := scoreFcfConversion (brsFcfConversion pd inputs)
  let roicVsWaccScore := brsRoicVsWaccScore pd inputs
  let incrementalRoicScore := (brsIncrementalRoicPair pd inputs).1
  let netDebtScore := brsNetDebtScore pd inputs
  let interestCoverageScore := brsInterestCoverageScore pd inputs
  let grossMarginScore := (brsGrossMarginPair pd inputs).1
  let shareholderYieldScore := (brsShareholderYieldPair pd inputs).1
  let sbcToFcfScore := (brsSbcToFcfPair pd inputs).1
  let valuationSanity := evScore + fcfYieldScore
  let cashTruthQuality := cashConversionScore + fcfConversionScore
  let capitalEfficiency := roicVsWaccScore + incrementalRoicScore
  let balanceSheetRisk := netDebtScore + interestCoverageScore
  let durabilityAlignment := grossMarginScore + shareholderYieldScore + sbcToFcfScore
  { ticker := inputs.ticker
    asof_date := brsAsofDate pd inputs
    scores :=
      { valuation_sanity := valuationSanity
        cash_truth_quality := cashTruthQuality
        capital_efficiency := capitalEfficiency
        balance_sheet_risk := balanceSheetRisk
        durability_alignment := durabilityAlignment
        total := valuationSanity + cashTruthQuality + capitalEfficiency + balanceSheetRisk +
          durabilityAlignment }
    subscores :=
      { ev_to_ebitda := evScore
        fcf_yield := fcfYieldScore
        cash_conversion := cashConversionScore
        fcf_conversion := fcfConversionScore
        roic_vs_wacc := roicVsWaccScore
        incremental_roic := incrementalRoicScore
        net_debt_to_ebitda := netDebtScore
        interest_coverage := interestCoverageScore
        gross_margin_stability := grossMarginScore
        shareholder_yield := shareholderYieldScore
        sbc_to_fcf := sbcToFcfScore }
    warnings := brsWarnings pd inputs }

end Brs3

/-! ## narrative-shock.ts (the narrative shock classifier) -/

inductive SourceType where
  | SEC_FILING | EARNINGS_RELEASE | PRESS_RELEASE | NEWS
deriving DecidableEq, Repr

structure NarrativeDoc where
  source_type : SourceType
  title : String
  body : String
  published_at : String
  form_type : Option String := none
  filing_item : Option String := none
  url : Option String := none
  id : Option String := none
deriving DecidableEq, Repr

/-- Source `Record<SourceType, number>` of source weights. -/
structure SourceWeights where
  sec_filing : ℚ
  earnings_release : ℚ
  press_release : ℚ
  news : ℚ
deriving DecidableEq, Repr

def SourceWeights.get (w : SourceWeights) : SourceType → ℚ
  | .SEC_FILING => w.sec_filing
  | .EARNINGS_RELEASE => w.earnings_release
  | .PRESS_RELEASE => w.press_release
  | .NEWS => w.news

structure NarrativeShockParams where
  window_days : ℚ
  recency_half_life_days : ℚ
  source_weights : SourceWeights
  max_points_per_event_class : Option ℚ := none
  require_confirmation_for_accounting : Bool
  structural_threshold : ℚ
  primary_min_threshold : ℚ
  /-- source field `macro_threshold` -/
  mcr_threshold : ℚ
deriving DecidableEq, Repr

def DEFAULT_PARAMS : NarrativeShockParams :=
  { window_days := 30
    recency_half_life_days := 10
    source_weights := { sec_filing := 1, earnings_release := 9/10, press_release := 7/10, news := 1/2 }
    max_points_per_event_class := none
    require_confirmation_for_accounting := true
    structural_threshold := 50
    primary_min_threshold := 10
    mcr_threshold := 10 }

/-- Source `Partial<NarrativeShockParams>` plus the `ticker`/`window_end` options. -/
structure NarrativeOptions where
  ticker : Option String := none
  window_end : Option String := none
  window_days : Option ℚ := none
  recency_half_life_days : Option ℚ := none
  source_weights : Option SourceWeights := none
  max_points_per_event_class : Option ℚ := none
  require_confirmation_for_accounting : Option Bool := none
  structural_threshold : Option ℚ := none
  primary_min_threshold : Option ℚ := none
  mcr_threshold : Option ℚ := none
deriving DecidableEq, Repr

/-- Source `{ ...DEFAULT_PARAMS, ...options }` -/
def mergeNarrativeParams (o : NarrativeOptions) : NarrativeShockParams :=
  { window_days := o.window_days.getD DEFAULT_PARAMS.window_days
    recency_half_life_days := o.recency_half_life_days.getD DEFAULT_PARAMS.recency_half_life_days
    source_weights := o.source_weights.getD DEFAULT_PARAMS.source_weights
    max_points_per_event_class :=
      match o.max_points_per_event_class with
      | some v => some v
      | none => DEFAULT_PARAMS.max_points_per_event_class
    require_confirmation_for_accounting :=
      o.require_confirmation_for_accounting.getD DEFAULT_PARAMS.require_confirmation_for_accounting
    structural_threshold := o.structural_threshold.getD DEFAULT_PARAMS.structural_threshold
    primary_min_threshold := o.primary_min_threshold.getD DEFAULT_PARAMS.primary_min_threshold
    mcr_threshold := o.mcr_threshold.getD DEFAULT_PARAMS.mcr_threshold }

/-- a pattern: a literal substring or AND-of-substrings with optional OR list. -/
inductive Pattern where
  | lit (text : String)
  | comp (all : List String) (anyOf : Option (List String)) (label : String)
deriving DecidableEq, Repr

structure TierPoints where
  strong : ℚ
  weak : ℚ
deriving DecidableEq, Repr

structure EventClass where
  id : String
  priority : ℚ
  strong : List Pattern
  weak : List Pattern
  severity : TierPoints
  structural : TierPoints
  cap : ℚ
deriving DecidableEq, Repr

structure ProcessedDoc where
  source_type : SourceType
  published_at : String
  text : List Char
  weight : ℚ
deriving DecidableEq, Repr

structure DocMatch where
  doc : ProcessedDoc
  strongMatches : List String
  weakMatches : List String
deriving DecidableEq, Repr

def EVENT_CLASSES : List EventClass := [
  { id := "ACCOUNTING_RESTATEMENT", priority := 1
    strong := [.lit "restate", .lit "restatement",
      .lit "previously issued financial statements should no longer be relied upon",
      .lit "non-reliance", .lit "revision of previously issued", .lit "error in previously issued"]
    weak := [.lit "accounting error", .lit "misstatement", .lit "reclassification"]
    severity := ⟨35, 10⟩, structural := ⟨35, 10⟩, cap := 60 },
  { id := "FRAUD_OR_INTERNAL_CONTROL", priority := 2
    strong := [.lit "material weakness", .lit "internal control over financial reporting",
      .lit "icfr", .lit "auditor resignation",
      .lit "resigned as our independent registered public accounting firm",
      .lit "sec investigation", .lit "doj investigation"]
    weak := [.lit "investigation", .lit "whistleblower", .lit "irregularities"]
    severity := ⟨30, 8⟩, structural := ⟨30, 8⟩, cap := 55 },
  { id := "REGULATORY_OR_GOVERNMENT_ACTION", priority := 3
    strong := [.lit "consent decree", .lit "cease and desist", .lit "license suspended",
      .lit "license revoked", .lit "regulatory settlement", .lit "ban", .lit "prohibited",
      .lit "fined"]
    weak := [.lit "inquiry", .lit "notice of violation", .lit "regulator"]
    severity := ⟨25, 6⟩, structural := ⟨20, 4⟩, cap := 45 },
  { id := "LEGAL_LITIGATION", priority := 4
    strong := [.lit "class action", .lit "lawsuit", .lit "litigation", .lit "settlement",
      .lit "damages", .lit "injunction"]
    weak := [.lit "legal proceeding", .lit "complaint"]
    severity := ⟨18, 5⟩, structural := ⟨10, 2⟩, cap := 35 },
  { id := "EXECUTIVE_CHANGE", priority := 5
    strong := [.lit "ceo resign", .lit "cfo resign", .lit "chief executive officer resigned",
      .lit "terminated", .lit "effective immediately", .lit "transition agreement"]
    weak := [.lit "appointed as", .lit "interim ceo"]
    severity := ⟨15, 4⟩, structural := ⟨10, 2⟩, cap := 25 },
  { id := "GUIDANCE_SHOCK_OR_EARNINGS_MISS", priority := 6
    strong := [.lit "withdraw guidance", .lit "suspending guidance", .lit "lowered guidance",
      .lit "reduced outlook", .lit "missed expectations", .lit "below expectations",
      .lit "materially below"]
    weak := [.lit "headwinds", .lit "soft demand", .lit "pricing pressure", .lit "margin pressure"]
    severity := ⟨18, 4⟩, structural := ⟨10, 2⟩, cap := 35 },
  { id := "PRODUCT_RECALL_OR_SAFETY", priority := 7
    strong := [.lit "recall", .lit "safety issue", .lit "product defect", .lit "injury",
      .lit "fatality"]
    weak := [.lit "quality issue"]
    severity := ⟨20, 5⟩, structural := ⟨15, 3⟩, cap := 35 },
  { id := "CYBERSECURITY_INCIDENT", priority := 8
    strong := [.lit "data breach", .lit "ransomware", .lit "cyberattack", .lit "security incident",
      .lit "unauthorized access"]
    weak := [.lit "incident response", .lit "forensic"]
    severity := ⟨18, 4⟩, structural := ⟨8, 2⟩, cap := 30 },
  { id := "CREDIT_LIQUIDITY_DISTRESS", priority := 9
    strong := [.lit "going concern", .lit "covenant breach", .lit "default",
      .lit "liquidity shortfall", .lit "refinancing", .lit "debt restructuring", .lit "chapter 11"]
    weak := [.lit "significant doubt", .lit "liquidity", .lit "cash burn"]
    severity := ⟨30, 8⟩, structural := ⟨30, 8⟩, cap := 55 },
  { id := "MAJOR_CONTRACT_OR_CUSTOMER_LOSS", priority := 10
    strong := [.lit "terminated agreement", .lit "customer churn", .lit "lost a major customer",
      .lit "non-renewal", .lit "largest customer", .lit "material customer"]
    weak := [.lit "contract renewal", .lit "pipeline weakness"]
    severity := ⟨20, 5⟩, structural := ⟨20, 5⟩, cap := 40 },
  { id := "M_AND_A_OR_STRATEGIC_REVIEW", priority := 11
    strong := [.lit "strategic alternatives", .lit "strategic review", .lit "exploring a sale",
      .lit "acquisition", .lit "merger"]
    weak := [.lit "evaluate options"]
    severity := ⟨10, 3⟩, structural := ⟨0, 0⟩, cap := 20 },
  { id := "CAPITAL_STRUCTURE_ACTION", priority := 12
    strong := [.lit "dividend cut", .lit "suspend dividend", .lit "buyback suspended",
      .lit "dilution", .lit "secondary offering", .lit "at-the-market offering",
      .lit "atm offering"]
    weak := [.lit "issue shares", .lit "repurchase"]
    severity := ⟨12, 3⟩, structural := ⟨8, 2⟩, cap := 25 },
  { id := "MACRO_ROTATION", priority := 13
    strong := [.lit "higher for longer", .lit "interest rates", .lit "inflation",
      .lit "recession", .lit "soft landing", .lit "hard landing", .lit "commodity cycle",
      .lit "oil price", .lit "china slowdown"]
    weak := [.lit "macro", .lit "sector rotation"]
    severity := ⟨8, 2⟩, structural := ⟨0, 0⟩, cap := 15 },
  { id := "STRUCTURAL_MODEL_RISK", priority := 14
    strong := [.lit "structural decline", .lit "secular decline", .lit "demand destruction",
      .lit "unit economics",
      .comp ["customer acquisition cost"] (some ["rising", "spiking"])
        "customer acquisition cost + rising/spiking",
      .comp ["pricing power"] (some ["lost", "deteriorating"])
        "pricing power + lost/deteriorating",
      .comp ["permanent"] (some ["impairment", "headwind"]) "permanent + impairment/headwind"]
    weak := [.lit "competitive pressure", .lit "market share loss", .lit "disruption"]
    severity := ⟨0, 0⟩, structural := ⟨35, 10⟩, cap := 60 }]

/-- whitespace for the `\s` character class (the characters our corpus uses). -/
def isWsChar (c : Char) : Bool := c = ' ' ∨ c = '\t' ∨ c = '\n' ∨ c = '\r'

/-- characters kept by the `[^a-z0-9%$.\-\s]` strip (after lowercasing). -/
def allowedChar (c : Char) : Bool :=
  (decide ('a' ≤ c) && decide (c ≤ 'z')) || (decide ('0' ≤ c) && decide (c ≤ '9')) ||
  c = '%' || c = '$' || c = '.' || c = '-'

/-- Source `normalizeText`: lowercase, replace disallowed characters by spaces,
collapse whitespace runs, trim. -/
def normalizeText (input : String) : List Char :=
  let lowered := input.data.map Char.toLower
  let stripped := lowered.map fun c => if allowedChar c || isWsChar c then c else ' '
  List.intercalate [' '] ((stripped.splitOnP isWsChar).filter (· ≠ []))

/-- Boolean substring test modelling JS `String.prototype.includes` on the
normalized character lists. -/
def isSubstr (p : List Char) : List Char → Bool
  | [] => p.isEmpty
  | c :: rest => p.isPrefixOf (c :: rest) || isSubstr p rest

/-- Source `matchPattern`. -/
def matchPattern (text : List Char) : Pattern → Bool
  | .lit p => isSubstr p.data text
  | .comp all anyOf _ =>
    all.all (fun p => isSubstr p.data text) &&
    (match anyOf with
     | some any => any.any (fun p => isSubstr p.data text)
     | none => true)

/-- Source `patternLabel`. -/
def patternLabel : Pattern → String
  | .lit p => p
  | .comp _ _ label => label

/-- Source `daysBetween` on epoch milliseconds. -/
def daysBetween (a b : Int) : ℚ := |((a : ℚ) - (b : ℚ))| / 86400000

/-- Source `hasAny`. -/
def hasAnyPattern (text : List Char) (patterns : List String) : Bool :=
  patterns.any (fun p => isSubstr p.data text)

section Narrative

variable (pd : String → Option Int)
-- decayFn age half models Math.exp(-Math.log 2 * age / half)
variable (decayFn : ℚ → ℚ → ℚ)

/-- Source `getDocWeight` (for a doc whose `published_at` parsed to `t`). -/
def getDocWeight (params : NarrativeShockParams) (source : SourceType) (t windowEnd : Int) : ℚ :=
  params.source_weights.get source * decayFn (daysBetween windowEnd t) params.recency_half_life_days

/-- Source `buildProcessedDocs`: window filter (unparseable `published_at` excluded)
then normalization and weighting. -/
def buildProcessedDocs (docs : List NarrativeDoc) (params : NarrativeShockParams)
    (windowStart : ℚ) (windowEnd : Int) : List ProcessedDoc :=
  (docs.filter fun doc =>
    match pd doc.published_at with
    | some t => decide (windowStart ≤ (t : ℚ)) && decide (t ≤ windowEnd)
    | none => false).map fun doc =>
    { source_type := doc.source_type
      published_at := doc.published_at
      text := normalizeText (doc.title ++ "\n" ++ doc.body)
      weight := getDocWeight decayFn params doc.source_type ((pd doc.published_at).getD 0) windowEnd }

end Narrative

/-- Source `computeClassScore`. -/
def computeClassScore (ms : List DocMatch) (pts : TierPoints) (cap : ℚ)
    (downgradeStrong : Bool) : ℚ :=
  let raw := ms.foldl
    (fun raw m =>
      let raw := if m.strongMatches.length > 0 then
        raw + m.doc.weight * (if downgradeStrong then pts.weak else pts.strong) else raw
      if m.weakMatches.length > 0 then
        raw + m.doc.weight * m.weakMatches.length * pts.weak else raw)
    0
  min raw cap

/-- per-class match list (same per-class order as the source's doc-major loop). -/
def classMatchesFor (processedDocs : List ProcessedDoc) (ec : EventClass) : List DocMatch :=
  processedDocs.filterMap fun doc =>
    let strongMatches := (ec.strong.filter (matchPattern doc.text)).map patternLabel
    let weakMatches := (ec.weak.filter (matchPattern doc.text)).map patternLabel
    if strongMatches.isEmpty && weakMatches.isEmpty then none
    else some ⟨doc, strongMatches, weakMatches⟩

/-- the `accountingConfirmed` closure. -/
def accountingConfirmed (ms : List DocMatch) : Bool :=
  if ms.isEmpty then false else
  let strongDocs := ms.filter (fun m => decide (m.strongMatches.length > 0))
  if strongDocs.isEmpty then false
  else if strongDocs.any (fun m => m.doc.source_type == .SEC_FILING) then true
  else decide (((strongDocs.map (fun m => m.doc.source_type)).dedup).length ≥ 2)

/-- per-class cap after the optional `max_points_per_event_class` (truthy) override. -/
def capFor (params : NarrativeShockParams) (ec : EventClass) : ℚ :=
  match params.max_points_per_event_class with
  | some v => if v ≠ 0 then min ec.cap v else ec.cap
  | none => ec.cap

/-- whether this class requires accounting confirmation. -/
def needsConfirmFor (params : NarrativeShockParams) (ec : EventClass) : Bool :=
  params.require_confirmation_for_accounting &&
    (ec.id == "ACCOUNTING_RESTATEMENT" || ec.id == "FRAUD_OR_INTERNAL_CONTROL")

/-- Source `downgradeStrong` for a class. -/
def downgradeFor (params : NarrativeShockParams) (processedDocs : List ProcessedDoc)
    (ec : EventClass) : Bool :=
  needsConfirmFor params ec && !accountingConfirmed (classMatchesFor processedDocs ec)

/-- Source `classScores[ec.id]` (severity points). -/
def classSeverityScore (processedDocs : List ProcessedDoc) (params : NarrativeShockParams)
    (ec : EventClass) : ℚ :=
  computeClassScore (classMatchesFor processedDocs ec) ec.severity (capFor params ec)
    (downgradeFor params processedDocs ec)

/-- Source `structuralScores[ec.id]`. -/
def classStructuralScore (processedDocs : List ProcessedDoc) (params : NarrativeShockParams)
    (ec : EventClass) : ℚ :=
  computeClassScore (classMatchesFor processedDocs ec) ec.structural (capFor params ec)
    (downgradeFor params processedDocs ec)

/-- Source `classHasStrong`. -/
def classHasStrong (processedDocs : List ProcessedDoc) (id : String) : Bool :=
  match EVENT_CLASSES.find? (fun c => c.id == id) with
  | some ec => (classMatchesFor processedDocs ec).any (fun m => decide (m.strongMatches.length > 0))
  | none => false

/-- severity total before rounding: clamped sum of class severity scores. -/
def severityTotal (processedDocs : List ProcessedDoc) (params : NarrativeShockParams) : ℚ :=
  clamp ((EVENT_CLASSES.map (classSeverityScore processedDocs params)).foldl (· + ·) 0) 0 100

/-- structural risk before rounding: base class sum plus the escalation rules,
clamped. -/
def structuralTotal (processedDocs : List ProcessedDoc) (params : NarrativeShockParams) : ℚ :=
  let base := (EVENT_CLASSES.map (classStructuralScore processedDocs params)).foldl (· + ·) 0
  let combinedText := List.intercalate [' '] (processedDocs.map (·.text))
  let r1 := if classHasStrong processedDocs "CREDIT_LIQUIDITY_DISTRESS" &&
      hasAnyPattern combinedText ["going concern", "covenant breach", "refinancing"]
    then (30 : ℚ) else 0
  let guidanceStrongCount :=
    ((classMatchesFor processedDocs
        (EVENT_CLASSES.find? (fun c => c.id == "GUIDANCE_SHOCK_OR_EARNINGS_MISS")
          |>.getD ⟨"", 0, [], [], ⟨0, 0⟩, ⟨0, 0⟩, 0⟩)).filter
      (fun m => decide (m.strongMatches.length > 0))).length
  let r2 := if guidanceStrongCount ≥ 2 ||
      (classHasStrong processedDocs "GUIDANCE_SHOCK_OR_EARNINGS_MISS" &&
        hasAnyPattern combinedText ["demand weakening", "pricing pressure", "structural"])
    then (20 : ℚ) else 0
  let r3 := if classHasStrong processedDocs "MAJOR_CONTRACT_OR_CUSTOMER_LOSS" &&
      hasAnyPattern combinedText ["largest", "significant portion"]
    then (25 : ℚ) else 0
  let r4 := if classHasStrong processedDocs "ACCOUNTING_RESTATEMENT" ||
      (hasAnyPattern combinedText ["material weakness"] && hasAnyPattern combinedText ["auditor"])
    then (35 : ℚ) else 0
  let r5 := if classHasStrong processedDocs "PRODUCT_RECALL_OR_SAFETY" &&
      hasAnyPattern combinedText ["fatality", "ban", "regulator"]
    then (25 : ℚ) else 0
  let r6 := if classHasStrong processedDocs "EXECUTIVE_CHANGE" &&
      hasAnyPattern combinedText ["effective immediately", "terminated"]
    then (15 : ℚ) else 0
  let r7 := if classHasStrong processedDocs "REGULATORY_OR_GOVERNMENT_ACTION" &&
      hasAnyPattern combinedText ["consent decree", "settlement", "ban", "license revoked"]
    then (25 : ℚ) else 0
  clamp (base + r1 + r2 + r3 + r4 + r5 + r6 + r7) 0 100

structure ClassScoreEntry where
  id : String
  score : ℚ
deriving DecidableEq, Repr

/-- stable insertion for the `(a, b) => b.score - a.score` descending sort. -/
def insertScoreDesc (a : ClassScoreEntry) : List ClassScoreEntry → List ClassScoreEntry
  | [] => [a]
  | b :: l => if a.score ≥ b.score then a :: b :: l else b :: insertScoreDesc a l

def sortScoreDesc : List ClassScoreEntry → List ClassScoreEntry
  | [] => []
  | a :: l => insertScoreDesc a (sortScoreDesc l)

structure TopMatch where
  event_class : String
  pattern : String
  source_type : SourceType
  published_at : String
  weight : ℚ
deriving DecidableEq, Repr

/-- stable insertion for the `(a, b) => b.weight - a.weight` descending sort. -/
def insertWeightDesc (a : TopMatch) : List TopMatch → List TopMatch
  | [] => [a]
  | b :: l => if a.weight ≥ b.weight then a :: b :: l else b :: insertWeightDesc a l

def sortWeightDesc : List TopMatch → List TopMatch
  | [] => []
  | a :: l => insertWeightDesc a (sortWeightDesc l)

/-- Source `allMatches` in the source's doc-major push order. -/
def allMatchesList (processedDocs : List ProcessedDoc) : List TopMatch :=
  processedDocs.flatMap fun doc =>
    EVENT_CLASSES.flatMap fun ec =>
      let strongMatches := (ec.strong.filter (matchPattern doc.text)).map patternLabel
      let weakMatches := (ec.weak.filter (matchPattern doc.text)).map patternLabel
      (strongMatches ++ weakMatches).map fun pat =>
        { event_class := ec.id, pattern := pat, source_type := doc.source_type
          published_at := doc.published_at, weight := doc.weight }

inductive ShockType where
  | ONE_OFF | MACRO_ROTATION | STRUCTURAL_RISK | NONE
deriving DecidableEq, Repr

structure NarrativeShockResult where
  ticker : Option String
  window_start : ℚ
  window_end : ℚ
  primary_event_class : String
  shock_type : ShockType
  severity_0_100 : ℚ
  structural_risk_0_100 : ℚ
  mds_narrative_shock_points : ℚ
  top_matches : List TopMatch
  secondary_event_classes : List ClassScoreEntry
deriving DecidableEq, Repr

section Narrative2

variable (pd : String → Option Int)
variable (decayFn : ℚ → ℚ → ℚ)

/-- Body of `classifyNarrativeShock` from the processed documents onwards. -/
def classifyFromProcessed (processedDocs : List ProcessedDoc) (params : NarrativeShockParams)
    (windowStart : ℚ) (windowEnd : Int) (ticker : Option String) : NarrativeShockResult :=
  let severity := severityTotal processedDocs params
  let structuralRisk := structuralTotal processedDocs params
  let sortedByScore := sortScoreDesc
    (EVENT_CLASSES.map fun c => ⟨c.id, classSeverityScore processedDocs params c⟩)
  let mcrScore := (sortedByScore.find? (fun c => c.id == "MACRO_ROTATION")).elim 0 (·.score)
  let bestNonMacro := sortedByScore.find? (fun c => c.id != "MACRO_ROTATION")
  let primaryEvent :=
    match bestNonMacro with
    | some best =>
      if best.score ≥ params.primary_min_threshold then best.id
      else if mcrScore ≥ params.mcr_threshold then "MACRO_ROTATION" else "NONE"
    | none => if mcrScore ≥ params.mcr_threshold then "MACRO_ROTATION" else "NONE"
  let shockType : ShockType :=
    if primaryEvent = "MACRO_ROTATION" then .MACRO_ROTATION
    else if primaryEvent ≠ "NONE" then
      (if structuralRisk ≥ params.structural_threshold then .STRUCTURAL_RISK else .ONE_OFF)
    else if mcrScore ≥ params.mcr_threshold then .MACRO_ROTATION
    else .NONE
  let mdsPoints : ℚ := if shockType = .ONE_OFF then 15
    else if shockType = .MACRO_ROTATION then 10 else 0
  let secondary := (sortedByScore.filter fun c => decide (c.score > 0) && c.id != primaryEvent).map
    fun c => ClassScoreEntry.mk c.id (toFixed2 c.score)
  let topMatches := (sortWeightDesc (allMatchesList processedDocs)).take 10
  { ticker := ticker
    window_start := windowStart
    window_end := (windowEnd : ℚ)
    primary_event_class := primaryEvent
    shock_type := shockType
    severity_0_100 := jsRound severity
    structural_risk_0_100 := jsRound structuralRisk
    mds_narrative_shock_points := mdsPoints
    top_matches := topMatches
    secondary_event_classes := secondary }

/-- Source `classifyNarrativeShock`.  `nowMs` models `new Date()` (used when
no `window_end` is supplied); an unparseable `window_end` string (which makes
the source throw on `toISOString`) is unmodelled and treated as `nowMs`. -/
def classifyNarrativeShock (nowMs : Int) (docs : List NarrativeDoc)
    (options : NarrativeOptions) : NarrativeShockResult :=
  let params := mergeNarrativeParams options
  let windowEnd : Int := match options.window_end with
    | some s => (pd s).getD nowMs
    | none => nowMs
  let windowStart : ℚ := (windowEnd : ℚ) - params.window_days * 86400000
  classifyFromProcessed (buildProcessedDocs pd decayFn docs params windowStart windowEnd)
    params windowStart windowEnd options.ticker

end Narrative2

/-! ## brs-mds-pipeline.ts (the MDS engine, `computeMdsFromSeries` path) -/

structure MdsConfig where
  history_short : ℚ
  history_long : ℚ
  history_min : ℚ
  ebitda_flat : ℚ
  ebitda_mild : ℚ
  ebitda_collapse : ℚ
  fcf_stdev_stable : ℚ
  fcf_stdev_volatile : ℚ
  ocf_stdev_stable : ℚ
  ocf_stdev_volatile : ℚ
  gm_stdev : ℚ
  revenue_stable : ℚ
  multiple_strong : ℚ
  multiple_mild : ℚ
  fcf_yield_up : ℚ
  eps_drop : ℚ
  short_elevated : ℚ
  short_extreme : ℚ
  insider_value_threshold : ℚ
  insider_pct_threshold : ℚ
  ownership_holders_drop : ℚ
  ownership_shares_drop : ℚ

def DEFAULT_MDS_CONFIG : MdsConfig :=
  { history_short := 12
    history_long := 20
    history_min := 12
    ebitda_flat := -5/100
    ebitda_mild := -20/100
    ebitda_collapse := -30/100
    fcf_stdev_stable := 3/100
    fcf_stdev_volatile := 7/100
    ocf_stdev_stable := 2/100
    ocf_stdev_volatile := 5/100
    gm_stdev := 2/100
    revenue_stable := -5/100
    multiple_strong := 30/100
    multiple_mild := 20/100
    fcf_yield_up := 30/100
    eps_drop := -10/100
    short_elevated := 10/100
    short_extreme := 20/100
    insider_value_threshold := 1000000
    insider_pct_threshold := 5/10000
    ownership_holders_drop := 10/100
    ownership_shares_drop := 5/100 }

/-- A `Partial<MdsConfig>` override (shallow merge over the defaults). -/
structure MdsConfigOverride where
  history_short : Option ℚ := none
  history_long : Option ℚ := none
  history_min : Option ℚ := none
  ebitda_flat : Option ℚ := none
  ebitda_mild : Option ℚ := none
  ebitda_collapse : Option ℚ := none
  fcf_stdev_stable : Option ℚ := none
  fcf_stdev_volatile : Option ℚ := none
  ocf_stdev_stable : Option ℚ := none
  ocf_stdev_volatile : Option ℚ := none
  gm_stdev : Option ℚ := none
  revenue_stable : Option ℚ := none
  multiple_strong : Option ℚ := none
  multiple_mild : Option ℚ := none
  fcf_yield_up : Option ℚ := none
  eps_drop : Option ℚ := none
  short_elevated : Option ℚ := none
  short_extreme : Option ℚ := none
  insider_value_threshold : Option ℚ := none
  insider_pct_threshold : Option ℚ := none
  ownership_holders_drop : Option ℚ := none
  ownership_shares_drop : Option ℚ := none

/-- Source `{ ...DEFAULT_MDS_CONFIG, ...(inputs.config ?? {}) }` -/
def mergeMdsConfig (o : Option MdsConfigOverride) : MdsConfig :=
  match o with
  | none => DEFAULT_MDS_CONFIG
  | some o =>
    { history_short := o.history_short.getD DEFAULT_MDS_CONFIG.history_short
      history_long := o.history_long.getD DEFAULT_MDS_CONFIG.history_long
      history_min := o.history_min.getD DEFAULT_MDS_CONFIG.history_min
      ebitda_flat := o.ebitda_flat.getD DEFAULT_MDS_CONFIG.ebitda_flat
      ebitda_mild := o.ebitda_mild.getD DEFAULT_MDS_CONFIG.ebitda_mild
      ebitda_collapse := o.ebitda_collapse.getD DEFAULT_MDS_CONFIG.ebitda_collapse
      fcf_stdev_stable := o.fcf_stdev_stable.getD DEFAULT_MDS_CONFIG.fcf_stdev_stable
      fcf_stdev_volatile := o.fcf_stdev_volatile.getD DEFAULT_MDS_CONFIG.fcf_stdev_volatile
      ocf_stdev_stable := o.ocf_stdev_stable.getD DEFAULT_MDS_CONFIG.ocf_stdev_stable
      ocf_stdev_volatile := o.ocf_stdev_volatile.getD DEFAULT_MDS_CONFIG.ocf_stdev_volatile
      gm_stdev := o.gm_stdev.getD DEFAULT_MDS_CONFIG.gm_stdev
      revenue_stable := o.revenue_stable.getD DEFAULT_MDS_CONFIG.revenue_stable
      multiple_strong := o.multiple_strong.getD DEFAULT_MDS_CONFIG.multiple_strong
      multiple_mild := o.multiple_mild.getD DEFAULT_MDS_CONFIG.multiple_mild
      fcf_yield_up := o.fcf_yield_up.getD DEFAULT_MDS_CONFIG.fcf_yield_up
      eps_drop := o.eps_drop.getD DEFAULT_MDS_CONFIG.eps_drop
      short_elevated := o.short_elevated.getD DEFAULT_MDS_CONFIG.short_elevated
      short_extreme := o.short_extreme.getD DEFAULT_MDS_CONFIG.short_extreme
      insider_value_threshold :=
        o.insider_value_threshold.getD DEFAULT_MDS_CONFIG.insider_value_threshold
      insider_pct_threshold := o.insider_pct_threshold.getD DEFAULT_MDS_CONFIG.insider_pct_threshold
      ownership_holders_drop := o.ownership_holders_drop.getD DEFAULT_MDS_CONFIG.ownership_holders_drop
      ownership_shares_drop := o.ownership_shares_drop.getD DEFAULT_MDS_CONFIG.ownership_shares_drop }

structure EstimatePoint where
  report_period : String
  eps_estimate : Option ℚ := none
  revenue_estimate : Option ℚ := none
deriving DecidableEq, Repr

structure OwnershipPoint where
  report_period : String
  institutional_holders : Option ℚ := none
  institutional_shares : Option ℚ := none
deriving DecidableEq, Repr

inductive TradeType where
  | buy | sell
deriving DecidableEq, Repr

structure InsiderTrade where
  transaction_date : String
  transaction_type : Option TradeType := none
  transaction_value : Option ℚ := none
deriving DecidableEq, Repr

structure MdsSeriesInputs where
  ticker : Option String := none
  asof_date : Option String := none
  metrics_history : List MetricsPoint
  income_statements : List IncomeStatement
  cash_flow_statements : List CashFlowStatement
  estimates : Option (List EstimatePoint) := none
  ownership_history : Option (List OwnershipPoint) := none
  insider_trades : Option (List InsiderTrade) := none
  short_interest_pct : Option ℚ := none
  docs : Option (List NarrativeDoc) := none
  narrative_params : Option NarrativeOptions := none
  fundamentals_intact : Option Bool := none
  config : Option MdsConfigOverride := none

structure MdsSubscores where
  multiple_compression : ℚ
  fcf_yield_expansion : ℚ
  expectation_reset : ℚ
  narrative_shock : ℚ
  operating_resilience : ℚ
  market_positioning : ℚ
  gm_defense : ℚ
  ocf_stability : ℚ
  capex_discipline : ℚ
  short_interest : ℚ
  ownership_capitulation : ℚ
  insider_bonus : ℚ

structure MdsSeriesResult where
  ticker : Option String
  multiple_compression_points : ℚ
  expectation_reset_points : ℚ
  narrative_shock_points : ℚ
  operating_resilience_points : ℚ
  market_positioning_points : ℚ
  expectation_reset_total : ℚ
  total_mds_points : ℚ
  narrative_detail : Option NarrativeShockResult
  subscores : MdsSubscores
  warnings : List String

inductive EbitdaTrend where
  | flat | mild | collapse | unknown
deriving DecidableEq, Repr

inductive FcfStabilityClass where
  | stable | volatile | collapse | unknown
deriving DecidableEq, Repr

inductive OcfStabilityClass where
  | stable | volatile | deteriorating | unknown
deriving DecidableEq, Repr

inductive GmStatus where
  | stable | slight | collapse | unknown
deriving DecidableEq, Repr

section Mds

variable (pd : String → Option Int)

/-- Source `resolveAsofDate` of the MDS engine: latest period present in both
income and cash-flow, else the later of each statement's own latest period
with an `asof_misalignment` warning. -/
def resolveAsofDateMds (income : List IncomeStatement) (cashflow : List CashFlowStatement) :
    Option Int × List String :=
  let incomeDates := (income.map (·.report_period)).eraseDups
  let cashDates := cashflow.map (·.report_period)
  let candidates := incomeDates.filter (fun d => cashDates.contains d)
  if candidates ≠ [] then
    let parsed := candidates.filterMap pd
    let sorted := sortQ (parsed.map (fun t => (t : ℚ)))
    (sorted.getLast?.map (fun q => ⌊q⌋), [])
  else
    let incomeLatest := latestReportDate pd (·.report_period) income
    let cashLatest := latestReportDate pd (·.report_period) cashflow
    let fallback := sortQ (([incomeLatest, cashLatest].filterMap id).map (fun t => (t : ℚ)))
    (fallback.getLast?.map (fun q => ⌊q⌋), ["asof_misalignment"])

/-- Source `buildEbitdaSeries`: TTM EBIT plus matching-period TTM D&A. -/
def buildEbitdaSeries (income : List IncomeStatement) (cashflow : List CashFlowStatement) :
    List SeriesPoint :=
  let ebitTtm := rollingTtmSeries pd (·.report_period) income (·.ebit)
  let dAndATtm := rollingTtmSeries pd (·.report_period) cashflow (·.depreciation_and_amortization)
  ebitTtm.filterMap fun row =>
    match (dAndATtm.find? (fun item => item.report_period == row.report_period)).map (·.value) with
    | some dandA => some ⟨row.report_period, row.value + dandA⟩
    | none => none

/-- Source `computeYoYGrowth`: growth versus the point 4 entries earlier. -/
def computeYoYGrowth (series : List SeriesPoint) : List ℚ :=
  let sorted := sortByReportPeriod pd (·.report_period) series
  (List.range sorted.length).filterMap fun i =>
    if i < 4 then none else
    match sorted[i]?, sorted[i-4]? with
    | some cur, some prev => if prev.value = 0 then none else some (cur.value / prev.value - 1)
    | _, _ => none

/-- Source `classifyEbitdaTrend`. -/
def classifyEbitdaTrend (series : List SeriesPoint) (config : MdsConfig) : EbitdaTrend :=
  let growths := computeYoYGrowth pd series
  if growths.length = 0 then .unknown else
  match median growths with
  | none => .unknown
  | some medianGrowth =>
    let hasSevere := (growths.zip growths.tail).any fun p =>
      decide (p.2 < config.ebitda_collapse) && decide (p.1 < config.ebitda_collapse)
    if medianGrowth < config.ebitda_mild ∨ hasSevere then .collapse
    else if medianGrowth < config.ebitda_flat then .mild
    else .flat

/-- Bool form of the null check plus `sqrtLe` comparison on an optional
variance (`stdev !== null && stdev <= c`). -/
def optVarLe (v : Option ℚ) (c : ℚ) : Bool :=
  match v with
  | some v => sqrtLe v c
  | none => false

/-- Ratio-to-revenue series used by the FCF/OCF stability classifiers and the
capex block (zero or missing revenue excluded). -/
def ratioSeries (series revenueSeries : List SeriesPoint) : List ℚ :=
  series.filterMap fun row =>
    match (revenueSeries.find? (fun r => r.report_period == row.report_period)).map (·.value) with
    | some revenue => if revenue = 0 then none else some (row.value / revenue)
    | none => none

/-- Source `classifyFcfStability`. -/
def classifyFcfStability (fcfSeries revenueSeries : List SeriesPoint) (config : MdsConfig) :
    FcfStabilityClass :=
  let ratios := ratioSeries fcfSeries revenueSeries
  if ratios.length < 4 then .unknown else
  let last8 := ratios.drop (ratios.length - 8)
  let positiveCount := (last8.filter (fun v => v > 0)).length
  let ratioVar := stdevSq last8
  let lastTwo := last8.drop (last8.length - 2)
  let collapsing := decide (positiveCount ≤ 3) ||
    (match lastTwo with
     | [a, b] => decide (a < 0) && decide (b < a)
     | _ => false)
  if collapsing then .collapse
  else if decide (positiveCount ≥ 6) && optVarLe ratioVar config.fcf_stdev_stable then .stable
  else if decide (positiveCount ≥ 4) || optVarLe ratioVar config.fcf_stdev_volatile then .volatile
  else .collapse

/-- Source `classifyOcfStability`. -/
def classifyOcfStability (ocfSeries revenueSeries : List SeriesPoint) (config : MdsConfig) :
    OcfStabilityClass :=
  let ratios := ratioSeries ocfSeries revenueSeries
  if ratios.length < 4 then .unknown else
  let last8 := ratios.drop (ratios.length - 8)
  let positiveCount := (last8.filter (fun v => v > 0)).length
  let ratioVar := stdevSq last8
  if decide (positiveCount ≥ 7) && optVarLe ratioVar config.ocf_stdev_stable then .stable
  else if decide (positiveCount ≥ 5) || optVarLe ratioVar config.ocf_stdev_volatile then .volatile
  else .deteriorating

/-- Source `classifyGrossMargin` (status together with the margin series). -/
def classifyGrossMargin (income : List IncomeStatement) (config : MdsConfig) :
    GmStatus × List ℚ :=
  let sorted := sortByReportPeriod pd (·.report_period) income
  let series := sorted.filterMap fun row =>
    match row.revenue, row.gross_profit with
    | some revenue, some gross =>
      if revenue ≠ 0 ∧ gross ≠ 0 then some (gross / revenue) else none
    | _, _ => none
  if series.length < 4 then (.unknown, series) else
  let last8 := series.drop (series.length - 8)
  match slope last8, stdevSq last8 with
  | some gmSlope, some gmVar =>
    if sqrtLe gmVar config.gm_stdev = false then (.collapse, series)
    else if gmSlope < 0 then (.slight, series)
    else (.stable, series)
  | _, _ => (.unknown, series)

/-- Source `computeHistoryScore`: score from the trailing `windowSize`-point
median; returns the score and the observation count. -/
def computeHistoryScore (currentValue : Option ℚ) (history : List SeriesPoint)
    (windowSize : ℚ) (scoreFn : ℚ → ℚ → ℕ → ℚ) : ℚ × ℕ :=
  match currentValue with
  | none => (0, 0)
  | some cur =>
    let sorted := sortByReportPeriod pd (·.report_period) history
    let w := (⌊windowSize⌋).toNat
    let window := sorted.drop (sorted.length - w)
    let values := window.map (·.value)
    if values.length = 0 then (0, 0) else
    match median values with
    | none => (0, values.length)
    | some med => (scoreFn cur med values.length, values.length)

end Mds

/-- Source `applyCoverage`: undiscounted at or above `history_min`
observations, zero with a `missing_history_*` warning at zero, otherwise
scaled by `available / history_min` and rounded via `toFixed(2)` with a
`short_history_*` warning. -/
def applyCoverage (score : ℚ) (available : ℕ) (config : MdsConfig) (tag : String) :
    ℚ × List String :=
  if (available : ℚ) ≥ config.history_min then (score, [])
  else if available = 0 then (0, ["missing_history_" ++ tag])
  else (toFixed2 (score * ((available : ℚ) / config.history_min)), ["short_history_" ++ tag])

/-- The `compressionScoreFn` closure of `computeMdsFromSeries`. -/
def compressionScoreFn (ebitdaTrend : EbitdaTrend) (config : MdsConfig)
    (current med : ℚ) : ℚ :=
  if med ≤ 0 ∨ current ≤ 0 then 0 else
  let compression := 1 - current / med
  if ebitdaTrend = .unknown then 0
  else if compression ≥ config.multiple_strong ∧ ebitdaTrend = .flat then 15
  else if compression ≥ config.multiple_mild ∧ ebitdaTrend ≠ .collapse then 10
  else 0

/-- The `fcfYieldScoreFn` closure of `computeMdsFromSeries`. -/
def fcfYieldScoreFn (fcfStability : FcfStabilityClass) (config : MdsConfig)
    (current med : ℚ) : ℚ :=
  if med = 0 then 0 else
  let change := (current - med) / |med|
  if change < config.fcf_yield_up then 0
  else if fcfStability = .unknown then 0
  else if fcfStability = .stable then 15
  else if fcfStability = .volatile then 8
  else 0

section Mds2

variable (pd : String → Option Int)
variable (decayFn : ℚ → ℚ → ℚ)

/-! Lifted intermediates of `computeMdsFromSeries`. -/

def mdsConfig (inputs : MdsSeriesInputs) : MdsConfig := mergeMdsConfig inputs.config

def mdsAsofPair (inputs : MdsSeriesInputs) : Option Int × List String :=
  match inputs.asof_date with
  | some s => (pd s, [])
  | none => resolveAsofDateMds pd inputs.income_statements inputs.cash_flow_statements

def mdsAsofDate (inputs : MdsSeriesInputs) : Option Int := (mdsAsofPair pd inputs).1

def mdsMetricsAsOf (inputs : MdsSeriesInputs) : Option MetricsPoint :=
  match mdsAsofDate pd inputs with
  | some d => nearestByDate pd (·.report_period) inputs.metrics_history d 5
  | none => none

def mdsEbitdaSeries (inputs : MdsSeriesInputs) : List SeriesPoint :=
  buildEbitdaSeries pd inputs.income_statements inputs.cash_flow_statements

def mdsRevenueSeries (inputs : MdsSeriesInputs) : List SeriesPoint :=
  rollingTtmSeries pd (·.report_period) inputs.income_statements (·.revenue)

def mdsOcfSeries (inputs : MdsSeriesInputs) : List SeriesPoint :=
  rollingTtmSeries pd (·.report_period) inputs.cash_flow_statements
    (·.net_cash_flow_from_operations)

def mdsFcfSeries (inputs : MdsSeriesInputs) : List SeriesPoint :=
  rollingTtmSeries pd (·.report_period) inputs.cash_flow_statements (·.free_cash_flow)

def mdsCapexSeries (inputs : MdsSeriesInputs) : List SeriesPoint :=
  rollingTtmSeries pd (·.report_period) inputs.cash_flow_statements (·.capital_expenditure)

def mdsEvToEbitdaSeries (inputs : MdsSeriesInputs) : List SeriesPoint :=
  inputs.metrics_history.filterMap fun row =>
    match row.enterprise_value_to_ebitda with
    | some v => some ⟨row.report_period, v⟩
    | none => none

def mdsFcfYieldSeries (inputs : MdsSeriesInputs) : List SeriesPoint :=
  inputs.metrics_history.filterMap fun row =>
    match row.free_cash_flow_yield with
    | some v => some ⟨row.report_period, v⟩
    | none =>
      match row.market_cap with
      | some mc =>
        match ((mdsFcfSeries pd inputs).find? (fun r => r.report_period == row.report_period)).map
            (·.value) with
        | some fcf => if mc = 0 then none else some ⟨row.report_period, fcf / mc⟩
        | none => none
      | none => none

def mdsLatestEv (inputs : MdsSeriesInputs) : Option ℚ :=
  ((mdsEvToEbitdaSeries inputs).getLast?).map (·.value)

def mdsLatestFcfYield (inputs : MdsSeriesInputs) : Option ℚ :=
  ((mdsFcfYieldSeries pd inputs).getLast?).map (·.value)

def mdsEbitdaAsOf (inputs : MdsSeriesInputs) : Option ℚ :=
  match mdsMetricsAsOf pd inputs with
  | some m => ((mdsEbitdaSeries pd inputs).find? (fun r => r.report_period == m.report_period)).map
      (·.value)
  | none => none

def mdsFcfAsOf (inputs : MdsSeriesInputs) : Option ℚ :=
  match mdsMetricsAsOf pd inputs with
  | some m => ((mdsFcfSeries pd inputs).find? (fun r => r.report_period == m.report_period)).map
      (·.value)
  | none => none

def mdsCurrentEvToEbitda (inputs : MdsSeriesInputs) : Option ℚ :=
  match mdsMetricsAsOf pd inputs with
  | some m =>
    match m.enterprise_value_to_ebitda with
    | some r => some r
    | none =>
      match jsTruthyDiv m.enterprise_value (mdsEbitdaAsOf pd inputs) with
      | some v => some v
      | none => mdsLatestEv inputs
  | none => mdsLatestEv inputs

def mdsCurrentFcfYield (inputs : MdsSeriesInputs) : Option ℚ :=
  match mdsMetricsAsOf pd inputs with
  | some m =>
    match m.free_cash_flow_yield with
    | some r => some r
    | none =>
      match jsTruthyDiv (mdsFcfAsOf pd inputs) m.market_cap with
      | some v => some v
      | none => mdsLatestFcfYield pd inputs
  | none => mdsLatestFcfYield pd inputs

def mdsEbitdaTrend (inputs : MdsSeriesInputs) : EbitdaTrend :=
  classifyEbitdaTrend pd (mdsEbitdaSeries pd inputs) (mdsConfig inputs)

def mdsFcfStability (inputs : MdsSeriesInputs) : FcfStabilityClass :=
  classifyFcfStability (mdsFcfSeries pd inputs) (mdsRevenueSeries pd inputs) (mdsConfig inputs)

def mdsH3Compression (inputs : MdsSeriesInputs) : ℚ × ℕ :=
  computeHistoryScore pd (mdsCurrentEvToEbitda pd inputs) (mdsEvToEbitdaSeries inputs)
    (mdsConfig inputs).history_short
    (fun cur med _ => compressionScoreFn (mdsEbitdaTrend pd inputs) (mdsConfig inputs) cur med)

def mdsH5Compression (inputs : MdsSeriesInputs) : ℚ × ℕ :=
  computeHistoryScore pd (mdsCurrentEvToEbitda pd inputs) (mdsEvToEbitdaSeries inputs)
    (mdsConfig inputs).history_long
    (fun cur med _ => compressionScoreFn (mdsEbitdaTrend pd inputs) (mdsConfig inputs) cur med)

def mdsCompressionPair (inputs : MdsSeriesInputs) : ℚ × List String :=
  let a := applyCoverage (mdsH3Compression pd inputs).1 (mdsH3Compression pd inputs).2
    (mdsConfig inputs) "multiple_h3"
  let b := applyCoverage (mdsH5Compression pd inputs).1 (mdsH5Compression pd inputs).2
    (mdsConfig inputs) "multiple_h5"
  (min a.1 b.1, a.2 ++ b.2)

def mdsH3FcfYield (inputs : MdsSeriesInputs) : ℚ × ℕ :=
  computeHistoryScore pd (mdsCurrentFcfYield pd inputs) (mdsFcfYieldSeries pd inputs)
    (mdsConfig inputs).history_short
    (fun cur med _ => fcfYieldScoreFn (mdsFcfStability pd inputs) (mdsConfig inputs) cur med)

def mdsH5FcfYield (inputs : MdsSeriesInputs) : ℚ × ℕ :=
  computeHistoryScore pd (mdsCurrentFcfYield pd inputs) (mdsFcfYieldSeries pd inputs)
    (mdsConfig inputs).history_long
    (fun cur med _ => fcfYieldScoreFn (mdsFcfStability pd inputs) (mdsConfig inputs) cur med)

def mdsFcfYieldPair (inputs : MdsSeriesInputs) : ℚ × List String :=
  let a := applyCoverage (mdsH3FcfYield pd inputs).1 (mdsH3FcfYield pd inputs).2
    (mdsConfig inputs) "fcf_yield_h3"
  let b := applyCoverage (mdsH5FcfYield pd inputs).1 (mdsH5FcfYield pd inputs).2
    (mdsConfig inputs) "fcf_yield_h5"
  (min a.1 b.1, a.2 ++ b.2)

def mdsMultipleCompressionPoints (inputs : MdsSeriesInputs) : ℚ :=
  clamp ((mdsCompressionPair pd inputs).1 + (mdsFcfYieldPair pd inputs).1) 0 30

def mdsExpectationResetPair (inputs : MdsSeriesInputs) : ℚ × List String :=
  let config := mdsConfig inputs
  let epsEstimates : List EstimatePoint := match inputs.estimates with
    | some e => sortByReportPeriod pd (fun r : EstimatePoint => r.report_period) e
    | none => []
  if epsEstimates.length ≥ 2 then
    let recentRow := epsEstimates.getLastD ⟨"", none, none⟩
    let priorRow := epsEstimates.getD (epsEstimates.length - 4) ⟨"", none, none⟩
    match recentRow.eps_estimate, priorRow.eps_estimate with
    | some recent, some prior =>
      if prior = 0 then (0, []) else
      let epsChange := (recent - prior) / |prior|
      if epsChange ≤ config.eps_drop then
        match recentRow.revenue_estimate, priorRow.revenue_estimate with
        | some recentRev, some priorRev =>
          if priorRev ≠ 0 then
            let revChange := (recentRev - priorRev) / |priorRev|
            (if revChange ≥ config.revenue_stable then 10 else 5, [])
          else
            match median (computeYoYGrowth pd (mdsRevenueSeries pd inputs)) with
            | some revenueTrend =>
              (if revenueTrend ≥ config.revenue_stable then 10 else 5, [])
            | none => (0, ["missing_revenue_signal"])
        | _, _ =>
          match median (computeYoYGrowth pd (mdsRevenueSeries pd inputs)) with
          | some revenueTrend =>
            (if revenueTrend ≥ config.revenue_stable then 10 else 5, [])
          | none => (0, ["missing_revenue_signal"])
      else (0, [])
    | _, _ => (0, [])
  else (0, ["missing_eps_estimates"])

def mdsNarrativeTriple (nowMs : Int) (inputs : MdsSeriesInputs) :
    ℚ × Option NarrativeShockResult × List String :=
  match inputs.docs with
  | some docs =>
    if docs.length > 0 then
      let np : NarrativeOptions := inputs.narrative_params.getD {}
      let detail := classifyNarrativeShock pd decayFn nowMs docs
        { np with
            ticker := inputs.ticker
            window_end := inputs.asof_date }
      (detail.mds_narrative_shock_points, some detail, [])
    else (0, none, ["missing_narrative_corpus"])
  | none => (0, none, ["missing_narrative_corpus"])

def mdsGmStatus (inputs : MdsSeriesInputs) : GmStatus :=
  (classifyGrossMargin pd inputs.income_statements (mdsConfig inputs)).1

def mdsRevenueTrend (inputs : MdsSeriesInputs) : Option ℚ :=
  median (computeYoYGrowth pd (mdsRevenueSeries pd inputs))

def mdsGmDefense (inputs : MdsSeriesInputs) : ℚ :=
  let declining := match mdsRevenueTrend pd inputs with
    | some t => decide (t < (mdsConfig inputs).revenue_stable)
    | none => false
  if mdsGmStatus pd inputs = .stable ∧ declining = true then 10
  else if mdsGmStatus pd inputs = .stable ∨ mdsGmStatus pd inputs = .slight then 5
  else 0

def mdsOcfStability (inputs : MdsSeriesInputs) : OcfStabilityClass :=
  classifyOcfStability (mdsOcfSeries pd inputs) (mdsRevenueSeries pd inputs) (mdsConfig inputs)

def mdsOcfScore (inputs : MdsSeriesInputs) : ℚ :=
  match mdsOcfStability pd inputs with
  | .stable => 10
  | .volatile => 5
  | _ => 0

def mdsCapexPair (inputs : MdsSeriesInputs) : ℚ × List String :=
  let capexRatios := ratioSeries (mdsCapexSeries pd inputs) (mdsRevenueSeries pd inputs)
  if capexRatios.length ≥ 4 then
    let capexSlope := (slope (capexRatios.drop (capexRatios.length - 8))).getD 0
    if capexSlope ≤ 0 then (5, [])
    else
      let declining := match mdsRevenueTrend pd inputs with
        | some t => decide (t < 0)
        | none => false
      if declining = true then (3, []) else (0, [])
  else (0, ["missing_capex_history"])

def mdsOperatingResilience (inputs : MdsSeriesInputs) : ℚ :=
  clamp (mdsGmDefense pd inputs + mdsOcfScore pd inputs + (mdsCapexPair pd inputs).1) 0 25

def mdsShortInterestPair (inputs : MdsSeriesInputs) : ℚ × List String :=
  match inputs.short_interest_pct with
  | some v =>
    (if v ≥ (mdsConfig inputs).short_extreme then 5
     else if v ≥ (mdsConfig inputs).short_elevated then 10
     else 0, [])
  | none => (0, ["missing_short_interest"])

def mdsOwnershipPair (inputs : MdsSeriesInputs) : ℚ × List String :=
  let config := mdsConfig inputs
  match inputs.ownership_history with
  | some oh =>
    if oh.length ≥ 3 then
      let sorted := sortByReportPeriod pd (·.report_period) oh
      let latest := sorted.getLastD ⟨"", none, none⟩
      let prev := sorted.getD (sorted.length - 3) ⟨"", none, none⟩
      let holdersDrop : ℚ := match latest.institutional_holders, prev.institutional_holders with
        | some lh, some ph => if lh ≠ 0 ∧ ph ≠ 0 then (ph - lh) / ph else 0
        | _, _ => 0
      let sharesDrop : ℚ := match latest.institutional_shares, prev.institutional_shares with
        | some ls, some ps => if ls ≠ 0 ∧ ps ≠ 0 then (ps - ls) / ps else 0
        | _, _ => 0
      let ocfLatest := ((mdsOcfSeries pd inputs).getLast?).map (·.value)
      let fundamentalsIntact := inputs.fundamentals_intact.getD
        (match ocfLatest with
         | some v => decide (v > 0)
         | none => false)
      if fundamentalsIntact = true ∧
          (holdersDrop ≥ config.ownership_holders_drop ∨ sharesDrop ≥ config.ownership_shares_drop)
      then (10, []) else (0, [])
    else (0, ["missing_ownership_history"])
  | none => (0, ["missing_ownership_history"])

def mdsInsiderPair (nowMs : Int) (inputs : MdsSeriesInputs) : ℚ × List String :=
  let config := mdsConfig inputs
  let marketCap := (mdsMetricsAsOf pd inputs).bind (·.market_cap)
  match inputs.insider_trades with
  | some trades =>
    if trades.length > 0 then
      let cutoff : ℚ := match mdsAsofDate pd inputs with
        | some d => (d : ℚ) - 180 * 86400000
        | none => (nowMs : ℚ) - 180 * 86400000
      let net : ℚ := trades.foldl
        (fun net trade =>
          match pd trade.transaction_date with
          | none => net
          | some date =>
            if (date : ℚ) < cutoff then net else
            match trade.transaction_value, trade.transaction_type with
            | some v, some ty =>
              if v ≠ 0 then (if ty = .buy then net + v else net - v) else net
            | _, _ => net)
        0
      if net > 0 then
        let pct : ℚ := match marketCap with
          | some mc => if mc ≠ 0 then net / mc else 0
          | none => 0
        if net ≥ config.insider_value_threshold ∨ pct ≥ config.insider_pct_threshold
        then (5, []) else (0, [])
      else (0, [])
    else (0, ["missing_insider_trades"])
  | none => (0, ["missing_insider_trades"])

def mdsMarketPositioning (nowMs : Int) (inputs : MdsSeriesInputs) : ℚ :=
  clamp ((mdsShortInterestPair inputs).1 + (mdsOwnershipPair pd inputs).1 +
    (mdsInsiderPair pd nowMs inputs).1) 0 20

/-- The warnings list of `computeMdsFromSeries`, in source push order. -/
def mdsWarnings (nowMs : Int) (inputs : MdsSeriesInputs) : List String :=
  (mdsAsofPair pd inputs).2 ++
  (if mdsAsofDate pd inputs = none then ["missing_asof_date"] else []) ++
  (if mdsCurrentEvToEbitda pd inputs = none then ["missing_ev_to_ebitda"] else []) ++
  (if mdsCurrentFcfYield pd inputs = none then ["missing_fcf_yield"] else []) ++
  (if mdsEbitdaTrend pd inputs = .unknown then ["missing_ebitda_history"] else []) ++
  (if mdsFcfStability pd inputs = .unknown then ["missing_fcf_history"] else []) ++
  (mdsCompressionPair pd inputs).2 ++
  (mdsFcfYieldPair pd inputs).2 ++
  (mdsExpectationResetPair pd inputs).2 ++
  (mdsNarrativeTriple pd decayFn nowMs inputs).2.2 ++
  (if mdsGmStatus pd inputs = .unknown then ["missing_gross_margin_history"] else []) ++
  (if mdsOcfStability pd inputs = .unknown then ["missing_ocf_history"] else []) ++
  (mdsCapexPair pd inputs).2 ++
  (mdsShortInterestPair inputs).2 ++
  (mdsOwnershipPair pd inputs).2 ++
  (mdsInsiderPair pd nowMs inputs).2

/-- Source `computeMdsFromSeries`. -/
def computeMdsFromSeries (nowMs : Int) (inputs : MdsSeriesInputs) : MdsSeriesResult :=
  let multipleCompressionPoints := mdsMultipleCompressionPoints pd inputs
  let expectationReset := (mdsExpectationResetPair pd inputs).1
  let narrativeShockPoints := (mdsNarrativeTriple pd decayFn nowMs inputs).1
  let operatingResilience := mdsOperatingResilience pd inputs
  let marketPositioning := mdsMarketPositioning pd nowMs inputs
  let expectationResetTotal := expectationReset + narrativeShockPoints
  { ticker := inputs.ticker
    multiple_compression_points := multipleCompressionPoints
    expectation_reset_points := expectationReset
    narrative_shock_points := narrativeShockPoints
    operating_resilience_points := operatingResilience
    market_positioning_points := marketPositioning
    expectation_reset_total := expectationResetTotal
    total_mds_points := clamp
      (multipleCompressionPoints + expectationResetTotal + operatingResilience + marketPositioning)
      0 100
    narrative_detail := (mdsNarrativeTriple pd decayFn nowMs inputs).2.1
    subscores :=
      { multiple_compression := (mdsCompressionPair pd inputs).1
        fcf_yield_expansion := (mdsFcfYieldPair pd inputs).1
        expectation_reset := expectationReset
        narrative_shock := narrativeShockPoints
        operating_resilience := operatingResilience
        market_positioning := marketPositioning
        gm_defense := mdsGmDefense pd inputs
        ocf_stability := mdsOcfScore pd inputs
        capex_discipline := (mdsCapexPair pd inputs).1
        short_interest := (mdsShortInterestPair inputs).1
        ownership_capitulation := (mdsOwnershipPair pd inputs).1
        insider_bonus := (mdsInsiderPair pd nowMs inputs).1 }
    warnings := mdsWarnings pd decayFn nowMs inputs }

end Mds2

/-! ## short-interest.ts -/

/-- A JS `unknown` input after numeric coercion: `null` / `undefined`, a
finite number, or a value whose coercion is NaN or infinite (non-numeric
strings, `NaN`, `±Infinity`). -/
inductive JsVal where
  | vnull | vundef | vnum (x : ℚ) | vnonfinite
deriving DecidableEq, Repr

/-- Source `normalizeShortInterest`. -/
def normalizeShortInterest : JsVal → Option ℚ
  | .vnull => none
  | .vundef => none
  | .vnonfinite => none
  | .vnum x =>
    if x < 0 then none
    else if x > 1 ∧ x ≤ 100 then some (x / 100)
    else if x > 1 then none
    else some x

/-! ## Concrete fixtures for the example theorems -/

def dayMs : Int := 86400000

/-- Example date table: quarterly report labels, 90 days apart. -/
def exPd : String → Option Int
  | "q1" => some (0 * dayMs)
  | "q2" => some (90 * dayMs)
  | "q3" => some (180 * dayMs)
  | "q4" => some (270 * dayMs)
  | "q5" => some (360 * dayMs)
  | "q6" => some (450 * dayMs)
  | "q7" => some (540 * dayMs)
  | "q8" => some (630 * dayMs)
  | "q9" => some (720 * dayMs)
  | _ => none

/-- A date-parse function with no parseable dates. -/
def pdNone : String → Option Int := fun _ => none

/-- A decay function that is constantly 1 (the real exponential decay at age 0). -/
def unitDecay : ℚ → ℚ → ℚ := fun _ _ => 1

/-- Four consecutive quarterly income statements with revenue 100 and gross
profit 40 each (end-to-end scenario 1). -/
def c2Income : List IncomeStatement :=
  [{ report_period := "q1", revenue := some 100, gross_profit := some 40 },
   { report_period := "q2", revenue := some 100, gross_profit := some 40 },
   { report_period := "q3", revenue := some 100, gross_profit := some 40 },
   { report_period := "q4", revenue := some 100, gross_profit := some 40 }]

/-- BRS inputs with a config override `low_history_gm_multiplier = 1000`:
the gross-margin sub-score becomes 5000 and the unclamped total escapes
[0, 100]. -/
def c1BadInputs : BrsInputs :=
  { ticker := "T"
    company_facts := []
    income_statements := c2Income
    balance_sheets := []
    cash_flow_statements := []
    metrics_history := []
    universe_metrics := []
    config := some { low_history_gm_multiplier := some 1000 } }

/-- Minimal MDS inputs carrying only a short-interest reading. -/
def c3InputsAt (si : ℚ) : MdsSeriesInputs :=
  { metrics_history := []
    income_statements := []
    cash_flow_statements := []
    short_interest_pct := some si }

def c4Pd : String → Option Int
  | "D0" => some 0
  | _ => none

/-- A single NEWS document carrying restatement language (end-to-end
scenario 3). -/
def c4NewsDoc : NarrativeDoc :=
  { source_type := .NEWS
    title := "update"
    body := "the Company will restate previously issued financial statements"
    published_at := "D0" }

/-- The same text as an SEC filing (end-to-end scenario 2). -/
def c4SecDoc : NarrativeDoc := { c4NewsDoc with source_type := .SEC_FILING }

def c4Opts : NarrativeOptions := { window_end := some "D0" }

/-- BRS inputs whose peer universe is too small at every level: two
same-sector peers, `min_peers` left at the default 15. -/
def c5Inputs : BrsInputs :=
  { ticker := "T"
    company_facts := [{ ticker := "T", sector := some "S", industry := some "I" }]
    income_statements := []
    balance_sheets := []
    cash_flow_statements := []
    metrics_history := []
    universe_metrics :=
      [{ ticker := "P1", sector := some "S", industry := some "J", ev_to_ebitda := some 10 },
       { ticker := "P2", sector := some "S", industry := some "J", ev_to_ebitda := some 20 }]
    config := none }

def c6IncomeRow (q : String) : IncomeStatement := { report_period := q, ebit := some 10 }

def c6CashRow (q : String) : CashFlowStatement :=
  { report_period := q, depreciation_and_amortization := some 2 }

/-- MDS inputs with a flat EBITDA trend, a single-point EV/EBITDA history
(median 16) and a current EV/EBITDA of 576/48 = 12: per-window compression
score 10 from 1 of 12 required observations. -/
def c6Inputs : MdsSeriesInputs :=
  { metrics_history :=
      [{ report_period := "q1", enterprise_value_to_ebitda := some 16 },
       { report_period := "q9", enterprise_value := some 576 }]
    income_statements := ["q1","q2","q3","q4","q5","q6","q7","q8","q9"].map c6IncomeRow
    cash_flow_statements := ["q1","q2","q3","q4","q5","q6","q7","q8","q9"].map c6CashRow }

def c8Pd : String → Option Int
  | "2024-03-01" => some 3
  | "2024-01-01" => some 1
  | _ => none

/-- A parseable-late row, an unparseable row, a parseable-early row. -/
def c8Rows : List IncomeStatement :=
  [{ report_period := "2024-03-01" }, { report_period := "not-a-date" },
   { report_period := "2024-01-01" }]

/-- Rows sorted so that every pair of parseable dates is non-decreasing
(pairs with an unparseable side are unconstrained, as in the comparator). -/
def datesNonDecreasing (pd : String → Option Int) (rp : α → String) (l : List α) : Prop :=
  List.Pairwise (fun a b => jsDateLe pd rp a b = true) l

/-- The comparator of source `sortByReportPeriod` as the JS number it
returns: 0 when either date fails to parse, otherwise the difference of the
parsed times (`da.getTime() - db.getTime()`). -/
def jsDateCompare (pd : String → Option Int) (rp : α → String) (a b : α) : Int :=
  match pd (rp a), pd (rp b) with
  | some da, some db => da - db
  | _, _ => 0

/-- The merge step of JavaScriptCore's `Array.prototype.sort` (WebKit
`builtins/ArrayPrototype.js`, `sortMerge`), continuation form so that the
recursion is structural and kernel-computable: `rest` merges the remainder
of the left run. The right run's head is taken exactly when
`comparator(right, left) < 0`, otherwise the left head (ties keep the left
run first). -/
def jscMergeGo (cmp : α → α → Int) (x : α) (rest : List α → List α) : List α → List α
  | [] => x :: rest []
  | y :: ys => if cmp y x < 0 then y :: jscMergeGo cmp x rest ys else x :: rest (y :: ys)

/-- WebKit `sortMerge`: merge two runs, taking from the right run exactly
when `comparator(right, left) < 0`. -/
def jscMerge (cmp : α → α → Int) : List α → List α → List α
  | [], ys => ys
  | x :: xs, ys => jscMergeGo cmp x (jscMerge cmp xs) ys

/-- One pass of JSC's bottom-up merge sort: adjacent runs are pairwise
merged (`sortMergeSort`'s inner loop over `srcIndex`; a trailing unpaired
run is copied as is). -/
def jscMergePairs (cmp : α → α → Int) : List (List α) → List (List α)
  | [] => []
  | [r] => [r]
  | r1 :: r2 :: rs => jscMerge cmp r1 r2 :: jscMergePairs cmp rs

/-- `k` passes of JSC's bottom-up merge sort (`sortMergeSort`'s outer loop;
a pass over a single remaining run is the identity, so extra passes are
harmless). -/
def jscMergeRounds (cmp : α → α → Int) : Nat → List (List α) → List (List α)
  | 0, rs => rs
  | k + 1, rs => jscMergeRounds cmp k (jscMergePairs cmp rs)

/-- JavaScriptCore's `Array.prototype.sort(comparator)` (WebKit
`builtins/ArrayPrototype.js`, `sortMergeSort`), the engine of the
repository's documented Bun runtime: a stable bottom-up merge sort. After
pass `k` the runs are exactly the index blocks of width `2 ^ k` of the JS
algorithm, so merging adjacent runs is the same computation as the source's
width-`2 ^ k` pass; `length` passes cover every pass the JS `while
(width < valueCount)` loop performs, and the remaining ones act as the
identity. -/
def jscSort (cmp : α → α → Int) (l : List α) : List α :=
  (jscMergeRounds cmp l.length (l.map (fun x => [x]))).flatten

/-- Source `sortByReportPeriod` as executed by the Bun/JavaScriptCore
runtime: JSC's merge sort driven by the source's comparator. (ECMA-262
leaves the order implementation-defined when the comparator is
inconsistent, which happens exactly when parseable and unparseable dates
are mixed; `sortByReportPeriod` above commits to a stable insertion sort
instead, which coincides with this model whenever the comparator is
consistent on the input.) -/
def jscSortByReportPeriod (pd : String → Option Int) (rp : α → String)
    (rows : List α) : List α :=
  jscSort (jsDateCompare pd rp) rows

/-- A parseable-late row, two unparseable rows, a parseable-early row: the
width-1 pass keeps every pair (each contains an unparseable side), and the
width-2 merge compares the early row only against the unparseable head of
the late block, so the list survives JSC's sort unchanged. -/
def c8Rows4 : List IncomeStatement :=
  [{ report_period := "2024-03-01" }, { report_period := "not-a-date" },
   { report_period := "also-not-a-date" }, { report_period := "2024-01-01" }]

/-- BRS inputs whose cash-flow statements are fully populated but whose TTM
OCF and TTM FCF sums are exactly zero. -/
def c10Inputs : BrsInputs :=
  { ticker := "T"
    company_facts := []
    income_statements := []
    balance_sheets := []
    cash_flow_statements :=
      [{ report_period := "q1", net_cash_flow_from_operations := some 5,
         free_cash_flow := some 1 },
       { report_period := "q2", net_cash_flow_from_operations := some (-5),
         free_cash_flow := some (-1) },
       { report_period := "q3", net_cash_flow_from_operations := some 3,
         free_cash_flow := some 2 },
       { report_period := "q4", net_cash_flow_from_operations := some (-3),
         free_cash_flow := some (-2) }]
    metrics_history := []
    universe_metrics := []
    config := none }

/-! ## Claim theorems -/

-- Batteries marks the `Rat` arithmetic irreducible; restore reducibility so
-- that concrete pipeline runs can be settled by kernel evaluation (`decide`).
set_option allowUnsafeReducibility true
attribute [local semireducible] Rat.add Rat.sub Rat.mul Rat.div Rat.inv Rat.neg
set_option maxRecDepth 40000

/-- C2 counterexample: on the exact scenario input (four consecutive
quarters with revenue 100 and gross profit 40) the single TTM gross-profit
point is 160 and the single TTM revenue point is 400, whose quotient is 2/5,
not the 0.25 the claim states. -/
theorem c2_counterexample :
    ((rollingTtmSeries exPd (fun r : IncomeStatement => r.report_period) c2Income
        (fun r => r.gross_profit)).headD ⟨"", 0⟩).value /
      ((rollingTtmSeries exPd (fun r : IncomeStatement => r.report_period) c2Income
        (fun r => r.revenue)).headD ⟨"", 0⟩).value = 2/5 ∧
    ¬ ((rollingTtmSeries exPd (fun r : IncomeStatement => r.report_period) c2Income
        (fun r => r.gross_profit)).headD ⟨"", 0⟩).value /
      ((rollingTtmSeries exPd (fun r : IncomeStatement => r.report_period) c2Income
        (fun r => r.revenue)).headD ⟨"", 0⟩).value = 1/4 := by
  refine ⟨by decide, by decide⟩

/-- C2 amended: four consecutive quarterly income statements with revenue
100 and gross profit 40 each produce exactly one TTM point of value 160 for
gross profit and exactly one TTM point of value 400 for revenue — a trailing
gross margin of 0.4 (the claim says 0.25; 160/400 = 0.4). -/
theorem c2_ttm_single_point :
    rollingTtmSeries exPd (fun r : IncomeStatement => r.report_period) c2Income
        (fun r => r.gross_profit) = [⟨"q4", 160⟩] ∧
    rollingTtmSeries exPd (fun r : IncomeStatement => r.report_period) c2Income
        (fun r => r.revenue) = [⟨"q4", 400⟩] ∧
    ((rollingTtmSeries exPd (fun r : IncomeStatement => r.report_period) c2Income
        (fun r => r.gross_profit)).headD ⟨"", 0⟩).value /
      ((rollingTtmSeries exPd (fun r : IncomeStatement => r.report_period) c2Income
        (fun r => r.revenue)).headD ⟨"", 0⟩).value = 2/5 := by
  refine ⟨by decide, by decide, by decide⟩

/-- C9: `normalizeShortInterest` maps null/undefined/non-finite and negative
or above-100 numbers to null, reads values in (1, 100] as percentages
(divides by 100), keeps values in [0, 1] unchanged, and every non-null
result lies in [0, 1]. -/
theorem c9_normalize_short_interest :
    normalizeShortInterest .vnull = none ∧
    normalizeShortInterest .vundef = none ∧
    normalizeShortInterest .vnonfinite = none ∧
    (∀ q : ℚ, q < 0 → normalizeShortInterest (.vnum q) = none) ∧
    (∀ q : ℚ, q > 100 → normalizeShortInterest (.vnum q) = none) ∧
    (∀ q : ℚ, 1 < q → q ≤ 100 → normalizeShortInterest (.vnum q) = some (q / 100)) ∧
    (∀ q : ℚ, 0 ≤ q → q ≤ 1 → normalizeShortInterest (.vnum q) = some q) ∧
    (∀ (v : JsVal) (q : ℚ), normalizeShortInterest v = some q → 0 ≤ q ∧ q ≤ 1) := by
  refine ⟨rfl, rfl, rfl, ?_, ?_, ?_, ?_, ?_⟩
  · intro q hq
    simp only [normalizeShortInterest, if_pos hq]
  · intro q hq
    have h1 : ¬ q < 0 := by linarith
    have h2 : ¬ (q > 1 ∧ q ≤ 100) := by rintro ⟨_, h⟩; linarith
    have h3 : q > 1 := by linarith
    simp only [normalizeShortInterest, if_neg h1, if_neg h2, if_pos h3]
  · intro q h1 h100
    have h0 : ¬ q < 0 := by linarith
    simp only [normalizeShortInterest, if_neg h0, if_pos (And.intro h1 h100)]
  · intro q h0 h1
    have hn : ¬ q < 0 := by linarith
    have h2 : ¬ (q > 1 ∧ q ≤ 100) := by rintro ⟨h, _⟩; linarith
    have h3 : ¬ q > 1 := by linarith
    simp only [normalizeShortInterest, if_neg hn, if_neg h2, if_neg h3]
  · intro v q hv
    cases v with
    | vnull => simp [normalizeShortInterest] at hv
    | vundef => simp [normalizeShortInterest] at hv
    | vnonfinite => simp [normalizeShortInterest] at hv
    | vnum x =>
      rcases lt_or_le x 0 with hx | hx
      · rw [(by simp [normalizeShortInterest, hx] :
          normalizeShortInterest (JsVal.vnum x) = none)] at hv
        exact Option.noConfusion hv
      · rcases le_or_lt x 1 with hx1 | hx1
        · have he : normalizeShortInterest (JsVal.vnum x) = some x := by
            simp only [normalizeShortInterest]
            rw [if_neg (not_lt.mpr hx), if_neg (by rintro ⟨h, _⟩; linarith),
              if_neg (by simp only [gt_iff_lt, not_lt]; exact hx1)]
          rw [he] at hv
          obtain rfl := Option.some_inj.mp hv
          exact ⟨hx, hx1⟩
        · rcases le_or_lt x 100 with hx100 | hx100
          · have he : normalizeShortInterest (JsVal.vnum x) = some (x / 100) := by
              simp only [normalizeShortInterest]
              rw [if_neg (not_lt.mpr hx), if_pos ⟨hx1, hx100⟩]
            rw [he] at hv
            obtain rfl := Option.some_inj.mp hv
            refine ⟨div_nonneg hx (by norm_num), ?_⟩
            rw [div_le_one (by norm_num : (0:ℚ) < 100)]
            exact hx100
          · have he : normalizeShortInterest (JsVal.vnum x) = none := by
              simp only [normalizeShortInterest]
              rw [if_neg (not_lt.mpr hx), if_neg (by rintro ⟨_, h⟩; linarith), if_pos hx1]
            rw [he] at hv
            exact Option.noConfusion hv

/-- C9 witness. -/
theorem c9_witness :
    normalizeShortInterest (.vnum 50) = some (1/2) ∧ normalizeShortInterest (.vnum (1/4)) = some (1/4) := by
  constructor
  · have h := c9_normalize_short_interest.2.2.2.2.2.1 50 (by norm_num) (by norm_num)
    rw [h]; norm_num
  · exact c9_normalize_short_interest.2.2.2.2.2.2.1 (1/4) (by norm_num) (by norm_num)

/-! ### C8: the two sort models -/

theorem perm_jsOrderedInsert (pd : String → Option Int) (rp : α → String) (a : α) :
    ∀ l : List α, (jsOrderedInsert pd rp a l).Perm (a :: l)
  | [] => List.Perm.refl _
  | b :: l => by
    unfold jsOrderedInsert
    by_cases hab : jsDateLe pd rp a b = true
    · rw [if_pos hab]
    · rw [if_neg hab]
      exact ((perm_jsOrderedInsert pd rp a l).cons b).trans (List.Perm.swap a b l)

theorem perm_sortByReportPeriod (pd : String → Option Int) (rp : α → String) :
    ∀ l : List α, (sortByReportPeriod pd rp l).Perm l
  | [] => List.Perm.refl _
  | a :: l => by
    unfold sortByReportPeriod
    exact (perm_jsOrderedInsert pd rp a _).trans
      ((perm_sortByReportPeriod pd rp l).cons a)

theorem jsDateLe_of_none_left (pd : String → Option Int) (rp : α → String) {a : α} (b : α)
    (h : pd (rp a) = none) : jsDateLe pd rp a b = true := by
  unfold jsDateLe
  rw [h]

theorem filter_none_jsOrderedInsert (pd : String → Option Int) (rp : α → String) (a : α) :
    ∀ l : List α,
      (jsOrderedInsert pd rp a l).filter (fun r => (pd (rp r)).isNone) =
        if (pd (rp a)).isNone then
          a :: l.filter (fun r => (pd (rp r)).isNone)
        else l.filter (fun r => (pd (rp r)).isNone)
  | [] => by
    unfold jsOrderedInsert
    rw [List.filter_cons]
  | b :: l => by
    by_cases ha : (pd (rp a)).isNone
    · have hnone : pd (rp a) = none := Option.isNone_iff_eq_none.mp ha
      unfold jsOrderedInsert
      rw [if_pos (jsDateLe_of_none_left pd rp b hnone), List.filter_cons]
    · unfold jsOrderedInsert
      by_cases hab : jsDateLe pd rp a b = true
      · rw [if_pos hab, List.filter_cons, if_neg ha]
      · rw [if_neg hab]
        simp only [List.filter_cons]
        rw [filter_none_jsOrderedInsert pd rp a l, if_neg ha, if_neg ha]

theorem filter_none_sortByReportPeriod (pd : String → Option Int) (rp : α → String) :
    ∀ l : List α,
      (sortByReportPeriod pd rp l).filter (fun r => (pd (rp r)).isNone) =
        l.filter (fun r => (pd (rp r)).isNone)
  | [] => rfl
  | a :: l => by
    unfold sortByReportPeriod
    rw [filter_none_jsOrderedInsert, filter_none_sortByReportPeriod pd rp l, List.filter_cons]

theorem jsDateLe_total_of_isSome (pd : String → Option Int) (rp : α → String) {a b : α}
    (ha : (pd (rp a)).isSome) (hb : (pd (rp b)).isSome)
    (h : ¬ jsDateLe pd rp a b = true) : jsDateLe pd rp b a = true := by
  obtain ⟨da, hda⟩ := Option.isSome_iff_exists.mp ha
  obtain ⟨db, hdb⟩ := Option.isSome_iff_exists.mp hb
  unfold jsDateLe at h ⊢
  rw [hda, hdb] at h ⊢
  simp only [decide_eq_true_eq] at h ⊢
  omega

theorem jsDateLe_trans_of_isSome (pd : String → Option Int) (rp : α → String) {a b c : α}
    (ha : (pd (rp a)).isSome) (hb : (pd (rp b)).isSome) (hc : (pd (rp c)).isSome)
    (h1 : jsDateLe pd rp a b = true) (h2 : jsDateLe pd rp b c = true) :
    jsDateLe pd rp a c = true := by
  obtain ⟨da, hda⟩ := Option.isSome_iff_exists.mp ha
  obtain ⟨db, hdb⟩ := Option.isSome_iff_exists.mp hb
  obtain ⟨dc, hdc⟩ := Option.isSome_iff_exists.mp hc
  unfold jsDateLe at h1 h2 ⊢
  rw [hda, hdb] at h1
  rw [hdb, hdc] at h2
  rw [hda, hdc]
  simp only [decide_eq_true_eq] at h1 h2 ⊢
  omega

theorem pairwise_jsOrderedInsert (pd : String → Option Int) (rp : α → String) (a : α) :
    ∀ l : List α, (∀ r ∈ a :: l, (pd (rp r)).isSome) →
      List.Pairwise (fun x y => jsDateLe pd rp x y = true) l →
      List.Pairwise (fun x y => jsDateLe pd rp x y = true) (jsOrderedInsert pd rp a l)
  | [], _, _ => List.pairwise_singleton _ a
  | b :: l, hsome, hpair => by
    unfold jsOrderedInsert
    obtain ⟨hb, hpl⟩ := List.pairwise_cons.mp hpair
    by_cases hab : jsDateLe pd rp a b = true
    · rw [if_pos hab]
      refine List.pairwise_cons.mpr ⟨?_, hpair⟩
      intro c hc
      rcases List.mem_cons.mp hc with rfl | hc
      · exact hab
      · exact jsDateLe_trans_of_isSome pd rp
          (hsome a (List.mem_cons_self _ _))
          (hsome b (List.mem_cons_of_mem a (List.mem_cons_self _ _)))
          (hsome c (List.mem_cons_of_mem a (List.mem_cons_of_mem b hc)))
          hab (hb c hc)
    · rw [if_neg hab]
      have hba : jsDateLe pd rp b a = true :=
        jsDateLe_total_of_isSome pd rp
          (hsome a (List.mem_cons_self _ _))
          (hsome b (List.mem_cons_of_mem a (List.mem_cons_self _ _))) hab
      refine List.pairwise_cons.mpr ⟨?_, ?_⟩
      · intro c hc
        rcases List.mem_cons.mp ((perm_jsOrderedInsert pd rp a l).mem_iff.mp hc) with rfl | hc
        · exact hba
        · exact hb c hc
      · refine pairwise_jsOrderedInsert pd rp a l ?_ hpl
        intro r hr
        rcases List.mem_cons.mp hr with rfl | hr
        · exact hsome r (List.mem_cons_self _ _)
        · exact hsome r (List.mem_cons_of_mem a (List.mem_cons_of_mem b hr))

theorem pairwise_sortByReportPeriod (pd : String → Option Int) (rp : α → String) :
    ∀ l : List α, (∀ r ∈ l, (pd (rp r)).isSome) →
      List.Pairwise (fun x y => jsDateLe pd rp x y = true) (sortByReportPeriod pd rp l)
  | [], _ => List.Pairwise.nil
  | a :: l, hsome => by
    unfold sortByReportPeriod
    refine pairwise_jsOrderedInsert pd rp a _ ?_
      (pairwise_sortByReportPeriod pd rp l
        (fun r hr => hsome r (List.mem_cons_of_mem a hr)))
    intro r hr
    rcases List.mem_cons.mp hr with rfl | hr
    · exact hsome r (List.mem_cons_self _ _)
    · exact hsome r (List.mem_cons_of_mem a ((perm_sortByReportPeriod pd rp l).mem_iff.mp hr))

theorem jscMerge_nil (cmp : α → α → Int) (ys : List α) : jscMerge cmp [] ys = ys := rfl

theorem jscMerge_nil_right (cmp : α → α → Int) : ∀ xs : List α, jscMerge cmp xs [] = xs
  | [] => rfl
  | x :: xs => by
    show x :: jscMerge cmp xs [] = x :: xs
    rw [jscMerge_nil_right cmp xs]

theorem jscMerge_cons_cons (cmp : α → α → Int) (x y : α) (xs ys : List α) :
    jscMerge cmp (x :: xs) (y :: ys) =
      if cmp y x < 0 then y :: jscMerge cmp (x :: xs) ys
      else x :: jscMerge cmp xs (y :: ys) := rfl

theorem jscMerge_perm (cmp : α → α → Int) :
    ∀ xs ys : List α, (jscMerge cmp xs ys).Perm (xs ++ ys)
  | [], ys => by rw [jscMerge_nil, List.nil_append]
  | x :: xs, [] => by rw [jscMerge_nil_right, List.append_nil]
  | x :: xs, y :: ys => by
    rw [jscMerge_cons_cons]
    split_ifs with h
    · exact ((jscMerge_perm cmp (x :: xs) ys).cons y).trans List.perm_middle.symm
    · exact (jscMerge_perm cmp xs (y :: ys)).cons x
termination_by xs ys => xs.length + ys.length

theorem jscMergePairs_perm (cmp : α → α → Int) :
    ∀ rs : List (List α), (jscMergePairs cmp rs).flatten.Perm rs.flatten
  | [] => List.Perm.refl _
  | [r] => List.Perm.refl _
  | r1 :: r2 :: rs => by
    simp only [jscMergePairs, List.flatten_cons]
    refine ((jscMerge_perm cmp r1 r2).append (jscMergePairs_perm cmp rs)).trans ?_
    rw [List.append_assoc]

theorem jscMergeRounds_perm (cmp : α → α → Int) :
    ∀ (k : Nat) (rs : List (List α)),
      (jscMergeRounds cmp k rs).flatten.Perm rs.flatten
  | 0, _ => List.Perm.refl _
  | k + 1, rs => (jscMergeRounds_perm cmp k _).trans (jscMergePairs_perm cmp rs)

theorem flatten_map_singleton : ∀ l : List α, (l.map (fun x => [x])).flatten = l
  | [] => rfl
  | x :: l => by
    simp only [List.map_cons, List.flatten_cons, List.singleton_append]
    rw [flatten_map_singleton l]

theorem jscSort_perm (cmp : α → α → Int) (l : List α) : (jscSort cmp l).Perm l := by
  have h := jscMergeRounds_perm cmp l.length (l.map (fun x => [x]))
  rwa [flatten_map_singleton l] at h

theorem jscMerge_sorted (f : α → Int) :
    ∀ xs ys : List α, xs.Pairwise (fun a b => f a ≤ f b) →
      ys.Pairwise (fun a b => f a ≤ f b) →
      (jscMerge (fun a b => f a - f b) xs ys).Pairwise (fun a b => f a ≤ f b)
  | [], ys, _, hys => by rw [jscMerge_nil]; exact hys
  | x :: xs, [], hxs, _ => by rw [jscMerge_nil_right]; exact hxs
  | x :: xs, y :: ys, hxs, hys => by
    rw [jscMerge_cons_cons]
    obtain ⟨hx, hxs2⟩ := List.pairwise_cons.mp hxs
    obtain ⟨hy, hys2⟩ := List.pairwise_cons.mp hys
    split_ifs with h
    · refine List.pairwise_cons.mpr ⟨?_, jscMerge_sorted f (x :: xs) ys hxs hys2⟩
      intro z hz
      rcases List.mem_append.mp
          ((jscMerge_perm _ (x :: xs) ys).mem_iff.mp hz) with hz | hz
      · rcases List.mem_cons.mp hz with rfl | hz
        · omega
        · have := hx z hz
          omega
      · exact hy z hz
    · refine List.pairwise_cons.mpr ⟨?_, jscMerge_sorted f xs (y :: ys) hxs2 hys⟩
      intro z hz
      rcases List.mem_append.mp
          ((jscMerge_perm _ xs (y :: ys)).mem_iff.mp hz) with hz | hz
      · exact hx z hz
      · rcases List.mem_cons.mp hz with rfl | hz
        · omega
        · have := hy z hz
          omega
termination_by xs ys => xs.length + ys.length

theorem jscMergePairs_sorted (f : α → Int) :
    ∀ rs : List (List α), (∀ r ∈ rs, r.Pairwise (fun a b => f a ≤ f b)) →
      ∀ r ∈ jscMergePairs (fun a b => f a - f b) rs,
        r.Pairwise (fun a b => f a ≤ f b)
  | [], _, r, hr => absurd hr (List.not_mem_nil r)
  | [r0], h, r, hr => by
    rcases List.mem_singleton.mp hr with rfl
    exact h r (List.mem_singleton_self r)
  | r1 :: r2 :: rs, h, r, hr => by
    rcases List.mem_cons.mp hr with rfl | hr
    · exact jscMerge_sorted f r1 r2 (h r1 (by simp)) (h r2 (by simp))
    · exact jscMergePairs_sorted f rs (fun q hq => h q (by simp [hq])) r hr

theorem jscMergePairs_length (cmp : α → α → Int) :
    ∀ rs : List (List α), (jscMergePairs cmp rs).length = (rs.length + 1) / 2
  | [] => by norm_num [jscMergePairs]
  | [r] => by norm_num [jscMergePairs]
  | r1 :: r2 :: rs => by
    simp only [jscMergePairs, List.length_cons, jscMergePairs_length cmp rs]
    omega

theorem jscMergeRounds_sorted (f : α → Int) :
    ∀ (k : Nat) (rs : List (List α)), rs.length ≤ 2 ^ k →
      (∀ r ∈ rs, r.Pairwise (fun a b => f a ≤ f b)) →
      ((jscMergeRounds (fun a b => f a - f b) k rs).flatten).Pairwise
        (fun a b => f a ≤ f b)
  | 0, [], _, _ => List.Pairwise.nil
  | 0, [r], _, h => by
    simp only [jscMergeRounds, List.flatten_cons, List.flatten_nil, List.append_nil]
    exact h r (List.mem_singleton_self r)
  | 0, r1 :: r2 :: rs, hlen, _ => by
    simp only [List.length_cons, pow_zero] at hlen
    omega
  | k + 1, rs, hlen, h => by
    show ((jscMergeRounds (fun a b => f a - f b) k
      (jscMergePairs (fun a b => f a - f b) rs)).flatten).Pairwise _
    refine jscMergeRounds_sorted f k _ ?_ (jscMergePairs_sorted f rs h)
    rw [jscMergePairs_length]
    have h2 : (2 : Nat) ^ (k + 1) = 2 ^ k * 2 := pow_succ 2 k
    omega

theorem jscSort_sorted (f : α → Int) (l : List α) :
    (jscSort (fun a b => f a - f b) l).Pairwise (fun a b => f a ≤ f b) := by
  refine jscMergeRounds_sorted f l.length (l.map (fun x => [x])) ?_ ?_
  · rw [List.length_map]
    exact (Nat.lt_two_pow l.length).le
  · intro r hr
    obtain ⟨x, -, rfl⟩ := List.mem_map.mp hr
    exact List.pairwise_singleton _ x

theorem jscMerge_congr (cmp cmp2 : α → α → Int) :
    ∀ xs ys : List α,
      (∀ a ∈ xs ++ ys, ∀ b ∈ xs ++ ys, cmp a b = cmp2 a b) →
      jscMerge cmp xs ys = jscMerge cmp2 xs ys
  | [], ys, _ => by rw [jscMerge_nil, jscMerge_nil]
  | x :: xs, [], _ => by rw [jscMerge_nil_right, jscMerge_nil_right]
  | x :: xs, y :: ys, h => by
    rw [jscMerge_cons_cons, jscMerge_cons_cons, h y (by simp) x (by simp)]
    split_ifs with hc
    · rw [jscMerge_congr cmp cmp2 (x :: xs) ys
        (fun a ha b hb => h a (by simp at ha ⊢; tauto) b (by simp at hb ⊢; tauto))]
    · rw [jscMerge_congr cmp cmp2 xs (y :: ys)
        (fun a ha b hb => h a (by simp at ha ⊢; tauto) b (by simp at hb ⊢; tauto))]
termination_by xs ys => xs.length + ys.length

theorem jscMergePairs_congr (cmp cmp2 : α → α → Int) :
    ∀ rs : List (List α),
      (∀ a ∈ rs.flatten, ∀ b ∈ rs.flatten, cmp a b = cmp2 a b) →
      jscMergePairs cmp rs = jscMergePairs cmp2 rs
  | [], _ => rfl
  | [r], _ => rfl
  | r1 :: r2 :: rs, h => by
    simp only [jscMergePairs]
    rw [jscMerge_congr cmp cmp2 r1 r2
      (fun a ha b hb => h a (by simp at ha ⊢; tauto) b (by simp at hb ⊢; tauto)),
      jscMergePairs_congr cmp cmp2 rs
      (fun a ha b hb => h a (by simp at ha ⊢; tauto) b (by simp at hb ⊢; tauto))]

theorem jscMergeRounds_congr (cmp cmp2 : α → α → Int) :
    ∀ (k : Nat) (rs : List (List α)),
      (∀ a ∈ rs.flatten, ∀ b ∈ rs.flatten, cmp a b = cmp2 a b) →
      jscMergeRounds cmp k rs = jscMergeRounds cmp2 k rs
  | 0, _, _ => rfl
  | k + 1, rs, h => by
    show jscMergeRounds cmp k (jscMergePairs cmp rs) =
      jscMergeRounds cmp2 k (jscMergePairs cmp2 rs)
    rw [jscMergePairs_congr cmp cmp2 rs h]
    refine jscMergeRounds_congr cmp cmp2 k _ ?_
    intro a ha b hb
    exact h a ((jscMergePairs_perm cmp2 rs).mem_iff.mp ha)
      b ((jscMergePairs_perm cmp2 rs).mem_iff.mp hb)

theorem jscSort_congr (cmp cmp2 : α → α → Int) (l : List α)
    (h : ∀ a ∈ l, ∀ b ∈ l, cmp a b = cmp2 a b) : jscSort cmp l = jscSort cmp2 l := by
  show (jscMergeRounds cmp l.length (l.map (fun x => [x]))).flatten =
    (jscMergeRounds cmp2 l.length (l.map (fun x => [x]))).flatten
  rw [jscMergeRounds_congr cmp cmp2 l.length (l.map (fun x => [x]))
    (by rw [flatten_map_singleton]; exact h)]

theorem jscMerge_zero (cmp : α → α → Int) :
    ∀ xs ys : List α, (∀ a ∈ ys, ∀ b ∈ xs, ¬ cmp a b < 0) →
      jscMerge cmp xs ys = xs ++ ys
  | [], ys, _ => by rw [jscMerge_nil, List.nil_append]
  | x :: xs, [], _ => by rw [jscMerge_nil_right, List.append_nil]
  | x :: xs, y :: ys, h => by
    rw [jscMerge_cons_cons, if_neg (h y (by simp) x (by simp))]
    rw [jscMerge_zero cmp xs (y :: ys)
      (fun a ha b hb => h a ha b (List.mem_cons_of_mem x hb))]
    rfl

theorem jscMergePairs_zero (cmp : α → α → Int) :
    ∀ rs : List (List α),
      (∀ a ∈ rs.flatten, ∀ b ∈ rs.flatten, ¬ cmp a b < 0) →
      (jscMergePairs cmp rs).flatten = rs.flatten
  | [], _ => rfl
  | [r], _ => rfl
  | r1 :: r2 :: rs, h => by
    simp only [jscMergePairs, List.flatten_cons]
    rw [jscMerge_zero cmp r1 r2
      (fun a ha b hb => h a (by simp [ha]) b (by simp [hb])),
      jscMergePairs_zero cmp rs
      (fun a ha b hb => h a (by simp at ha ⊢; tauto) b (by simp at hb ⊢; tauto)),
      List.append_assoc]

theorem jscMergeRounds_zero (cmp : α → α → Int) :
    ∀ (k : Nat) (rs : List (List α)),
      (∀ a ∈ rs.flatten, ∀ b ∈ rs.flatten, ¬ cmp a b < 0) →
      (jscMergeRounds cmp k rs).flatten = rs.flatten
  | 0, _, _ => rfl
  | k + 1, rs, h => by
    show (jscMergeRounds cmp k (jscMergePairs cmp rs)).flatten = rs.flatten
    rw [jscMergeRounds_zero cmp k (jscMergePairs cmp rs)
      (by rw [jscMergePairs_zero cmp rs h]; exact h)]
    exact jscMergePairs_zero cmp rs h

theorem jscSort_zero (cmp : α → α → Int) (l : List α)
    (h : ∀ a ∈ l, ∀ b ∈ l, ¬ cmp a b < 0) : jscSort cmp l = l := by
  show (jscMergeRounds cmp l.length (l.map (fun x => [x]))).flatten = l
  rw [jscMergeRounds_zero cmp l.length (l.map (fun x => [x]))
    (by rw [flatten_map_singleton]; exact h), flatten_map_singleton]

/-- C8 counterexample: under the Bun/JavaScriptCore merge sort, a
parseable-late row followed by two unparseable rows and a parseable-early
row survives the sort unchanged (every comparison the algorithm performs
involves an unparseable side and returns 0), so the two parseable rows
appear in strictly decreasing date order in the output, refuting the
claim's "every pair of rows with parseable dates appears in non-decreasing
date order". -/
theorem c8_counterexample :
    jscSortByReportPeriod c8Pd (fun r : IncomeStatement => r.report_period) c8Rows4 =
      c8Rows4 ∧
    c8Pd "2024-03-01" = some 3 ∧ c8Pd "2024-01-01" = some 1 ∧
    ¬ datesNonDecreasing c8Pd (fun r : IncomeStatement => r.report_period)
        (jscSortByReportPeriod c8Pd (fun r : IncomeStatement => r.report_period)
          c8Rows4) := by
  refine ⟨by decide, rfl, rfl, ?_⟩
  intro h
  unfold datesNonDecreasing at h
  rw [(by decide : jscSortByReportPeriod c8Pd
      (fun r : IncomeStatement => r.report_period) c8Rows4 =
    [{ report_period := "2024-03-01" }, { report_period := "not-a-date" },
     { report_period := "also-not-a-date" }, { report_period := "2024-01-01" }])] at h
  obtain ⟨h1, -⟩ := List.pairwise_cons.mp h
  have := h1 { report_period := "2024-01-01" } (by decide)
  exact absurd this (by decide)

/-- C8 amended: as executed by the repository's documented Bun runtime
(JavaScriptCore's stable bottom-up merge sort driven by the source
comparator), `sortByReportPeriod` always returns a permutation of its input
(no row is dropped); when every row's `report_period` parses, the
comparator is consistent and the output is in non-decreasing date order;
and when no row's date parses, the comparator is constantly 0 and the rows
come back in their original order.  (When parseable and unparseable rows
are mixed the comparator is inconsistent, ECMA-262 leaves the order
implementation-defined, and under the JSC merge sort a pair of parseable
rows separated by unparseable ones can remain out of date order.) -/
theorem c8_amended (pd : String → Option Int) (rp : α → String) (rows : List α) :
    (jscSortByReportPeriod pd rp rows).Perm rows ∧
    ((∀ r ∈ rows, (pd (rp r)).isSome) →
      datesNonDecreasing pd rp (jscSortByReportPeriod pd rp rows)) ∧
    ((∀ r ∈ rows, pd (rp r) = none) →
      jscSortByReportPeriod pd rp rows = rows) := by
  refine ⟨jscSort_perm _ rows, ?_, ?_⟩
  · intro hall
    have hcong : jscSortByReportPeriod pd rp rows =
        jscSort (fun a b => (pd (rp a)).getD 0 - (pd (rp b)).getD 0) rows := by
      refine jscSort_congr _ _ rows ?_
      intro a ha b hb
      obtain ⟨da, hda⟩ := Option.isSome_iff_exists.mp (hall a ha)
      obtain ⟨db, hdb⟩ := Option.isSome_iff_exists.mp (hall b hb)
      simp only [jsDateCompare, hda, hdb, Option.getD_some]
    unfold datesNonDecreasing
    rw [hcong]
    have hs := jscSort_sorted (fun r => (pd (rp r)).getD 0) rows
    refine List.Pairwise.imp_of_mem ?_ hs
    intro a b ha hb hle
    have ha2 : a ∈ rows := (jscSort_perm _ rows).mem_iff.mp ha
    have hb2 : b ∈ rows := (jscSort_perm _ rows).mem_iff.mp hb
    obtain ⟨da, hda⟩ := Option.isSome_iff_exists.mp (hall a ha2)
    obtain ⟨db, hdb⟩ := Option.isSome_iff_exists.mp (hall b hb2)
    simp only [hda, hdb, Option.getD_some] at hle
    simp only [jsDateLe, hda, hdb]
    exact decide_eq_true hle
  · intro hnone
    refine jscSort_zero _ rows ?_
    intro a ha b hb
    simp only [jsDateCompare, hnone a ha, hnone b hb]
    decide

/-- C8 witness: the amended theorem applied to the four all-parseable
scenario rows (sorted output) and to the three-row list none of whose dates
parse (returned in input order). -/
theorem c8_witness :
    datesNonDecreasing exPd (fun r : IncomeStatement => r.report_period)
      (jscSortByReportPeriod exPd (fun r : IncomeStatement => r.report_period)
        c2Income) ∧
    jscSortByReportPeriod pdNone (fun r : IncomeStatement => r.report_period) c8Rows =
      c8Rows :=
  ⟨(c8_amended exPd (fun r => r.report_period) c2Income).2.1 (by decide),
   (c8_amended pdNone (fun r => r.report_period) c8Rows).2.2 (by decide)⟩

/-! ### C6: coverage discounting -/

/-- C6 counterexample: on `c6Inputs` each compression window scores 10 from a
single observation, and the coverage-discounted sub-score is 0.83 — the
`toFixed(2)`-rounded value — not the exact 10 * (1/12) = 5/6 the claim
implies. -/
theorem c6_counterexample :
    mdsH3Compression exPd c6Inputs = (10, 1) ∧
    mdsH5Compression exPd c6Inputs = (10, 1) ∧
    (computeMdsFromSeries exPd unitDecay 0 c6Inputs).subscores.multiple_compression = 83/100 ∧
    ¬ ((83 : ℚ)/100 = 10 * ((1 : ℚ) / 12)) ∧
    "short_history_multiple_h3" ∈ (computeMdsFromSeries exPd unitDecay 0 c6Inputs).warnings := by
  refine ⟨by decide, by decide, by decide, by decide, by decide⟩

/-- C6 amended: a window sub-score from `history_min` or more observations is
the undiscounted score; from zero observations it is 0 with a
`missing_history_*` warning; from fewer-but-positive observations it is the
score scaled by `available / history_min` and then rounded to two decimal
places (`toFixed(2)`), with a `short_history_*` warning.  The compression
pair of `computeMdsFromSeries` is exactly the pointwise minimum of the two
`applyCoverage` window results. -/
theorem c6_apply_coverage (score : ℚ) (available : ℕ) (config : MdsConfig) (tag : String) :
    (((available : ℚ) ≥ config.history_min → applyCoverage score available config tag = (score, [])) ∧
     (¬ ((available : ℚ) ≥ config.history_min) → available = 0 →
       applyCoverage score available config tag = (0, ["missing_history_" ++ tag])) ∧
     (¬ ((available : ℚ) ≥ config.history_min) → available ≠ 0 →
       applyCoverage score available config tag =
         (toFixed2 (score * ((available : ℚ) / config.history_min)),
          ["short_history_" ++ tag]))) ∧
    (∀ (pd : String → Option Int) (inputs : MdsSeriesInputs),
      mdsCompressionPair pd inputs =
        (min (applyCoverage (mdsH3Compression pd inputs).1 (mdsH3Compression pd inputs).2
              (mdsConfig inputs) "multiple_h3").1
           (applyCoverage (mdsH5Compression pd inputs).1 (mdsH5Compression pd inputs).2
              (mdsConfig inputs) "multiple_h5").1,
         (applyCoverage (mdsH3Compression pd inputs).1 (mdsH3Compression pd inputs).2
            (mdsConfig inputs) "multiple_h3").2 ++
           (applyCoverage (mdsH5Compression pd inputs).1 (mdsH5Compression pd inputs).2
              (mdsConfig inputs) "multiple_h5").2)) := by
  refine ⟨⟨?_, ?_, ?_⟩, fun pd inputs => rfl⟩
  · intro h
    unfold applyCoverage
    rw [if_pos h]
  · intro h h0
    unfold applyCoverage
    rw [if_neg h, if_pos h0]
  · intro h h0
    unfold applyCoverage
    rw [if_neg h, if_neg h0]

/-- C6 witness: 10 points from a single observation (default `history_min`
12) is discounted to `toFixed2 (10/12) = 0.83`, with the short-history
warning. -/
theorem c6_witness :
    applyCoverage 10 1 DEFAULT_MDS_CONFIG "multiple_h3" =
      (83/100, ["short_history_multiple_h3"]) := by
  have h := ((c6_apply_coverage 10 1 DEFAULT_MDS_CONFIG "multiple_h3").1.2.2
    (by decide) (by decide))
  rw [h]
  refine Prod.ext ?_ rfl
  decide

/-! ### C3: short-interest banding -/

/-- C3: whenever `short_interest_pct` is supplied, the short-interest
sub-score of `computeMdsFromSeries` is 5 at or above the extreme threshold,
10 at or above the elevated threshold but below the extreme one, and 0
otherwise; the default thresholds are 0.20 and 0.10, and 0.25 scores 5,
0.15 scores 10, 0.05 scores 0. -/
theorem c3_short_interest_banding :
    (∀ (pd : String → Option Int) (decayFn : ℚ → ℚ → ℚ) (nowMs : Int)
        (inputs : MdsSeriesInputs) (v : ℚ), inputs.short_interest_pct = some v →
      (v ≥ (mergeMdsConfig inputs.config).short_extreme →
        (computeMdsFromSeries pd decayFn nowMs inputs).subscores.short_interest = 5) ∧
      (v ≥ (mergeMdsConfig inputs.config).short_elevated →
        v < (mergeMdsConfig inputs.config).short_extreme →
        (computeMdsFromSeries pd decayFn nowMs inputs).subscores.short_interest = 10) ∧
      (v < (mergeMdsConfig inputs.config).short_elevated →
        v < (mergeMdsConfig inputs.config).short_extreme →
        (computeMdsFromSeries pd decayFn nowMs inputs).subscores.short_interest = 0)) ∧
    DEFAULT_MDS_CONFIG.short_extreme = 20/100 ∧
    DEFAULT_MDS_CONFIG.short_elevated = 10/100 ∧
    (computeMdsFromSeries pdNone unitDecay 0 (c3InputsAt (25/100))).subscores.short_interest = 5 ∧
    (computeMdsFromSeries pdNone unitDecay 0 (c3InputsAt (15/100))).subscores.short_interest = 10 ∧
    (computeMdsFromSeries pdNone unitDecay 0 (c3InputsAt (5/100))).subscores.short_interest = 0 := by
  refine ⟨?_, rfl, rfl, by decide, by decide, by decide⟩
  intro pd decayFn nowMs inputs v h
  have hs : (computeMdsFromSeries pd decayFn nowMs inputs).subscores.short_interest =
      (mdsShortInterestPair inputs).1 := rfl
  have hp : (mdsShortInterestPair inputs).1 =
      (if v ≥ (mergeMdsConfig inputs.config).short_extreme then (5 : ℚ)
       else if v ≥ (mergeMdsConfig inputs.config).short_elevated then 10 else 0) := by
    unfold mdsShortInterestPair
    rw [h]
    rfl
  refine ⟨?_, ?_, ?_⟩
  · intro hx
    rw [hs, hp, if_pos hx]
  · intro he hx
    rw [hs, hp, if_neg (by exact not_le.mpr hx), if_pos he]
  · intro he hx
    rw [hs, hp, if_neg (by exact not_le.mpr hx), if_neg (by exact not_le.mpr he)]

/-- C3 witness: the banding theorem applied at `short_interest_pct = 0.25`. -/
theorem c3_witness :
    (computeMdsFromSeries pdNone unitDecay 0 (c3InputsAt (1/4))).subscores.short_interest = 5 :=
  ((c3_short_interest_banding.1 pdNone unitDecay 0 (c3InputsAt (1/4)) (1/4) rfl).1 (by decide))

/-! ### C10: zero TTM aggregates treated as missing -/

/-- C10: a TTM operating-cash-flow sum or TTM EBITDA of exactly 0 makes the
cash-conversion ratio null, so the cash_conversion sub-score is 0 and the
`missing_cash_conversion` warning is appended — exactly the missing-data
behavior; likewise for fcf_conversion with a zero TTM FCF. -/
theorem c10_zero_ttm_is_missing (pd : String → Option Int) (inputs : BrsInputs) :
    ((brsOcfTtm pd inputs = some 0 ∨ brsEbitdaTtm pd inputs = some 0) →
      brsCashConversion pd inputs = none) ∧
    (brsCashConversion pd inputs = none →
      (computeBrs pd inputs).subscores.cash_conversion = 0 ∧
      "missing_cash_conversion" ∈ (computeBrs pd inputs).warnings) ∧
    ((brsFcfTtm pd inputs = some 0 ∨ brsEbitdaTtm pd inputs = some 0) →
      brsFcfConversion pd inputs = none) ∧
    (brsFcfConversion pd inputs = none →
      (computeBrs pd inputs).subscores.fcf_conversion = 0 ∧
      "missing_fcf_conversion" ∈ (computeBrs pd inputs).warnings) := by
  refine ⟨?_, ?_, ?_, ?_⟩
  · intro h
    unfold brsCashConversion jsTruthyDiv
    rcases h with h | h
    · rw [h]
      cases brsEbitdaTtm pd inputs <;> simp
    · rw [h]
      cases brsOcfTtm pd inputs <;> simp
  · intro h
    constructor
    · have hs : (computeBrs pd inputs).subscores.cash_conversion =
        scoreCashConversion (brsCashConversion pd inputs) := rfl
      rw [hs, h]
      rfl
    · have hw : (computeBrs pd inputs).warnings = brsWarnings pd inputs := rfl
      rw [hw]
      unfold brsWarnings
      rw [if_pos h]
      simp
  · intro h
    unfold brsFcfConversion jsTruthyDiv
    rcases h with h | h
    · rw [h]
      cases brsEbitdaTtm pd inputs <;> simp
    · rw [h]
      cases brsFcfTtm pd inputs <;> simp
  · intro h
    constructor
    · have hs : (computeBrs pd inputs).subscores.fcf_conversion =
        scoreFcfConversion (brsFcfConversion pd inputs) := rfl
      rw [hs, h]
      rfl
    · have hw : (computeBrs pd inputs).warnings = brsWarnings pd inputs := rfl
      rw [hw]
      unfold brsWarnings
      rw [if_pos h]
      simp
  
/-- C10 witness: fully populated cash-flow quarters whose TTM OCF and FCF
sums are exactly zero score 0 with the missing-data warnings. -/
theorem c10_witness :
    (computeBrs exPd c10Inputs).subscores.cash_conversion = 0 ∧
    "missing_cash_conversion" ∈ (computeBrs exPd c10Inputs).warnings ∧
    (computeBrs exPd c10Inputs).subscores.fcf_conversion = 0 ∧
    "missing_fcf_conversion" ∈ (computeBrs exPd c10Inputs).warnings := by
  have h := c10_zero_ttm_is_missing exPd c10Inputs
  have hc := h.2.1 (h.1 (Or.inl (by decide)))
  have hf := h.2.2.2 (h.2.2.1 (Or.inl (by decide)))
  exact ⟨hc.1, hc.2, hf.1, hf.2⟩

/-! ### C5: peer-set fallback -/

/-- C5: peer resolution prefers same-industry, then same-sector, then the
whole universe, each subject to `min_peers`; when none qualifies it returns
level median with the sector peers if non-empty else the universe, and
`computeBrs` then appends `peer_set_too_small` and scores EV/EBITDA by the
median-ratio banding (cheap 0.7 → 15, mid 1.0 → 10, rich 1.3 → 5, else 0)
instead of the percentile rank. -/
theorem c5_peer_fallback :
    (∀ (ticker : String) (facts : List CompanyFacts) (univ : List UniverseMetric)
        (minPeers : ℚ),
      (((peersByIndustry ticker facts univ).length : ℚ) ≥ minPeers →
        resolvePeerSet ticker facts univ minPeers =
          ⟨peersByIndustry ticker facts univ, .industry⟩) ∧
      (¬ ((peersByIndustry ticker facts univ).length : ℚ) ≥ minPeers →
        ((peersBySector ticker facts univ).length : ℚ) ≥ minPeers →
        resolvePeerSet ticker facts univ minPeers =
          ⟨peersBySector ticker facts univ, .sector⟩) ∧
      (¬ ((peersByIndustry ticker facts univ).length : ℚ) ≥ minPeers →
        ¬ ((peersBySector ticker facts univ).length : ℚ) ≥ minPeers →
        ((univ.length : ℚ) ≥ minPeers) →
        resolvePeerSet ticker facts univ minPeers = ⟨univ, .allUniverse⟩) ∧
      (¬ ((peersByIndustry ticker facts univ).length : ℚ) ≥ minPeers →
        ¬ ((peersBySector ticker facts univ).length : ℚ) ≥ minPeers →
        ¬ ((univ.length : ℚ) ≥ minPeers) →
        resolvePeerSet ticker facts univ minPeers =
          ⟨if peersBySector ticker facts univ ≠ [] then peersBySector ticker facts univ
            else univ, .median⟩)) ∧
    (∀ (pd : String → Option Int) (inputs : BrsInputs),
      (brsPeerInfo inputs).level = .median →
      ("peer_set_too_small" ∈ (computeBrs pd inputs).warnings ∧
       (computeBrs pd inputs).subscores.ev_to_ebitda =
         (scoreEvToEbitdaMedian (brsEvToEbitda pd inputs) (median (brsPeerValues inputs))
           (mergeBrsConfig inputs.config).median_bands).1 ∧
       (∀ v m : ℚ, brsEvToEbitda pd inputs = some v →
         median (brsPeerValues inputs) = some m → m ≠ 0 →
         (computeBrs pd inputs).subscores.ev_to_ebitda =
           (if v / m ≤ (mergeBrsConfig inputs.config).median_bands.cheap then (15 : ℚ)
            else if v / m ≤ (mergeBrsConfig inputs.config).median_bands.mid then 10
            else if v / m ≤ (mergeBrsConfig inputs.config).median_bands.rich then 5
            else 0)))) ∧
    DEFAULT_BRS_CONFIG.min_peers = 15 ∧
    DEFAULT_BRS_CONFIG.median_bands = ⟨7/10, 1, 13/10⟩ := by
  refine ⟨?_, ?_, rfl, rfl⟩
  · intro ticker facts univ minPeers
    refine ⟨?_, ?_, ?_, ?_⟩
    · intro h1
      unfold resolvePeerSet
      rw [if_pos h1]
    · intro h1 h2
      unfold resolvePeerSet
      rw [if_neg h1, if_pos h2]
    · intro h1 h2 h3
      unfold resolvePeerSet
      rw [if_neg h1, if_neg h2, if_pos h3]
    · intro h1 h2 h3
      unfold resolvePeerSet
      rw [if_neg h1, if_neg h2, if_neg h3]
  · intro pd inputs hlev
    have hs : (computeBrs pd inputs).subscores.ev_to_ebitda =
        (brsEvScorePair pd inputs).1 := rfl
    refine ⟨?_, ?_, ?_⟩
    · have hmem : "peer_set_too_small" ∈ (brsEvScorePair pd inputs).2 := by
        unfold brsEvScorePair
        rw [if_pos hlev]
        exact List.mem_cons_self _ _
      have hw : (computeBrs pd inputs).warnings = brsWarnings pd inputs := rfl
      rw [hw]
      unfold brsWarnings
      simp only [List.mem_append]
      simp [hmem]
    · rw [hs]
      unfold brsEvScorePair
      rw [if_pos hlev]
    · intro v m hv hm hm0
      rw [hs]
      unfold brsEvScorePair
      rw [if_pos hlev]
      simp only [scoreEvToEbitdaMedian, hv, hm]
      rw [if_neg hm0]

/-- C5 witness: a two-company same-sector universe (below the default
`min_peers` of 15 at every level) resolves to the median level and flags
`peer_set_too_small`. -/
theorem c5_witness :
    resolvePeerSet "T" c5Inputs.company_facts c5Inputs.universe_metrics 15 =
      ⟨c5Inputs.universe_metrics.filter (fun u => u.sector == some "S"), .median⟩ ∧
    "peer_set_too_small" ∈ (computeBrs pdNone c5Inputs).warnings := by
  constructor
  · have h := (c5_peer_fallback.1 "T" c5Inputs.company_facts c5Inputs.universe_metrics
      15).2.2.2 (by decide) (by decide) (by decide)
    rw [h]
    decide
  · exact (c5_peer_fallback.2.1 pdNone c5Inputs (by decide)).1

/-! ### C7: rollingTtmSeries null-window and length behavior -/

theorem jsSum_some_no_none {l : List (Option ℚ)} {t : ℚ} (h : jsSum l = some t) :
    ∀ x ∈ l, x ≠ none := by
  unfold jsSum at h
  by_cases ha : l.any (fun v => v.isNone)
  · rw [if_pos ha] at h
    exact Option.noConfusion h
  · intro x hx hnone
    exact ha (List.any_eq_true.mpr ⟨x, hx, by rw [hnone]; rfl⟩)

theorem jsSum_isSome_of_no_none {l : List (Option ℚ)} (h : ∀ x ∈ l, x ≠ none) :
    (jsSum l).isSome := by
  unfold jsSum
  rw [if_neg]
  · rfl
  · intro ha
    obtain ⟨x, hx, hnone⟩ := List.any_eq_true.mp ha
    exact h x hx (Option.isNone_iff_eq_none.mp hnone)

theorem length_filterMap_range (f : ℕ → Option β) :
    ∀ n : ℕ, (∀ i, i < n → ((f i).isSome ↔ 3 ≤ i)) →
      ((List.range n).filterMap f).length = n - 3
  | 0, _ => rfl
  | n + 1, h => by
    rw [List.range_succ, List.filterMap_append, List.length_append,
      length_filterMap_range f n (fun i hi => h i (Nat.lt_succ_of_lt hi))]
    by_cases h3 : 3 ≤ n
    · obtain ⟨b, hb⟩ := Option.isSome_iff_exists.mp ((h n (Nat.lt_succ_self n)).mpr h3)
      simp only [List.filterMap_cons, hb, List.filterMap_nil, List.length_cons,
        List.length_nil]
      omega
    · have hb : f n = none := Option.not_isSome_iff_eq_none.mp
        (fun hs => h3 ((h n (Nat.lt_succ_self n)).mp hs))
      simp only [List.filterMap_cons, hb, List.filterMap_nil, List.length_nil]
      omega

/-- C7: every point emitted by `rollingTtmSeries` comes from a 4-row window
in which no contributing row has a null/undefined/NaN field value, and on
fully-populated rows with parseable dates it emits exactly N - 3 points. -/
theorem c7_rolling_ttm (pd : String → Option Int) (rp : α → String) (rows : List α)
    (getValue : α → Option ℚ) :
    (∀ p ∈ rollingTtmSeries pd rp rows getValue,
      ∃ i, 3 ≤ i ∧ i < (sortByReportPeriod pd rp rows).length ∧
        (∀ r ∈ ((sortByReportPeriod pd rp rows).drop (i - 3)).take 4, getValue r ≠ none) ∧
        jsSum ((((sortByReportPeriod pd rp rows).drop (i - 3)).take 4).map getValue) =
          some p.value) ∧
    ((∀ r ∈ rows, getValue r ≠ none) → (∀ r ∈ rows, pd (rp r) ≠ none) →
      4 ≤ rows.length →
      (rollingTtmSeries pd rp rows getValue).length = rows.length - 3) := by
  constructor
  · intro p hp
    simp only [rollingTtmSeries] at hp
    obtain ⟨i, hi, hfi⟩ := List.mem_filterMap.mp hp
    have hilt := List.mem_range.mp hi
    by_cases h3 : i < 3
    · rw [if_pos h3] at hfi
      exact absurd hfi (by simp)
    · rw [if_neg h3] at hfi
      rcases hrow : (sortByReportPeriod pd rp rows)[i]? with _ | row
      · rw [hrow] at hfi
        exact absurd hfi (by simp)
      · rw [hrow] at hfi
        rcases hsum : jsSum ((((sortByReportPeriod pd rp rows).drop (i - 3)).take 4).map
            getValue) with _ | total
        · rw [hsum] at hfi
          exact absurd hfi (by simp)
        · rw [hsum] at hfi
          obtain rfl := Option.some_inj.mp hfi
          refine ⟨i, by omega, hilt, ?_, hsum⟩
          intro r hr
          exact jsSum_some_no_none hsum (getValue r) (List.mem_map_of_mem getValue hr)
  · intro hv hpd hlen
    have hperm := perm_sortByReportPeriod pd rp rows
    have hlen2 : (sortByReportPeriod pd rp rows).length = rows.length := hperm.length_eq
    simp only [rollingTtmSeries]
    rw [length_filterMap_range, hlen2]
    intro i hilt
    constructor
    · intro hs
      by_contra h3
      rw [if_pos (by omega)] at hs
      simp at hs
    · intro h3
      rw [if_neg (by omega)]
      rw [List.getElem?_eq_getElem hilt]
      have hwin : ∀ x ∈ ((((sortByReportPeriod pd rp rows).drop (i - 3)).take 4).map
          getValue), x ≠ none := by
        intro x hx
        obtain ⟨r, hr, rfl⟩ := List.mem_map.mp hx
        exact hv r (hperm.mem_iff.mp (List.mem_of_mem_drop (List.mem_of_mem_take hr)))
      obtain ⟨t, ht⟩ := Option.isSome_iff_exists.mp (jsSum_isSome_of_no_none hwin)
      rw [ht]
      rfl

/-- C7 witness: four fully-populated parseable quarters yield exactly
4 - 3 = 1 TTM point. -/
theorem c7_witness :
    (rollingTtmSeries exPd (fun r : IncomeStatement => r.report_period) c2Income
      (fun r => r.revenue)).length = 1 := by
  have h := (c7_rolling_ttm exPd (fun r : IncomeStatement => r.report_period) c2Income
    (fun r => r.revenue)).2 (by decide) (by decide) (by decide)
  rw [h]
  decide

/-! ### C4: confirmation gating for accounting classes -/

theorem two_le_dedup_length_iff [DecidableEq β] (l : List β) :
    2 ≤ l.dedup.length ↔ ∃ a ∈ l, ∃ b ∈ l, a ≠ b := by
  constructor
  · intro h2
    rcases hd : l.dedup with _ | ⟨x, _ | ⟨y, ys⟩⟩
    · rw [hd] at h2; simp at h2
    · rw [hd] at h2; simp at h2
    · have hnd := List.nodup_dedup l
      rw [hd] at hnd
      have hxy : x ≠ y := by
        rcases List.nodup_cons.mp hnd with ⟨hx, -⟩
        exact fun he => hx (he ▸ List.mem_cons_self y ys)
      have hxl : x ∈ l := List.mem_dedup.mp (by rw [hd]; exact List.mem_cons_self _ _)
      have hyl : y ∈ l := List.mem_dedup.mp
        (by rw [hd]; exact List.mem_cons_of_mem x (List.mem_cons_self _ _))
      exact ⟨x, hxl, y, hyl, hxy⟩
  · rintro ⟨a, ha, b, hb, hne⟩
    by_contra hlt
    push_neg at hlt
    have hadl : a ∈ l.dedup := List.mem_dedup.mpr ha
    have hbdl : b ∈ l.dedup := List.mem_dedup.mpr hb
    rcases hd : l.dedup with _ | ⟨x, xs⟩
    · rw [hd] at hadl; simp at hadl
    · rw [hd] at hlt hadl hbdl
      have hxs : xs = [] := by
        cases xs with
        | nil => rfl
        | cons z zs =>
          simp only [List.length_cons] at hlt
          omega
      subst hxs
      simp only [List.mem_singleton] at hadl hbdl
      exact hne (hadl.trans hbdl.symm)

/-- C4: with `require_confirmation_for_accounting` enabled, the
ACCOUNTING_RESTATEMENT and FRAUD_OR_INTERNAL_CONTROL classes score their
strong matches at strong-tier points exactly when some strong-matching
document is an SEC filing or the strong-matching documents span at least
two distinct source types (the `accountingConfirmed` predicate); otherwise
`computeClassScore` is invoked with the downgrade flag, scoring every
strong match at weak-tier points — and the same restatement text in a
single NEWS document yields strictly lower severity and structural-risk
scores than in an SEC filing. -/
theorem c4_confirmation_gating :
    (∀ ms : List DocMatch,
      accountingConfirmed ms = true ↔
        ((∃ m ∈ ms, m.strongMatches ≠ [] ∧ m.doc.source_type = .SEC_FILING) ∨
         (∃ m1 ∈ ms, ∃ m2 ∈ ms, m1.strongMatches ≠ [] ∧ m2.strongMatches ≠ [] ∧
           m1.doc.source_type ≠ m2.doc.source_type))) ∧
    (∀ (processedDocs : List ProcessedDoc) (params : NarrativeShockParams) (ec : EventClass),
      params.require_confirmation_for_accounting = true →
      (ec.id = "ACCOUNTING_RESTATEMENT" ∨ ec.id = "FRAUD_OR_INTERNAL_CONTROL") →
      classSeverityScore processedDocs params ec =
        computeClassScore (classMatchesFor processedDocs ec) ec.severity (capFor params ec)
          (!accountingConfirmed (classMatchesFor processedDocs ec)) ∧
      classStructuralScore processedDocs params ec =
        computeClassScore (classMatchesFor processedDocs ec) ec.structural (capFor params ec)
          (!accountingConfirmed (classMatchesFor processedDocs ec))) ∧
    (∀ decayFn : ℚ → ℚ → ℚ, decayFn 0 10 = 1 →
      (classifyNarrativeShock c4Pd decayFn 0 [c4NewsDoc] c4Opts).severity_0_100 <
        (classifyNarrativeShock c4Pd decayFn 0 [c4SecDoc] c4Opts).severity_0_100 ∧
      (classifyNarrativeShock c4Pd decayFn 0 [c4NewsDoc] c4Opts).structural_risk_0_100 <
        (classifyNarrativeShock c4Pd decayFn 0 [c4SecDoc] c4Opts).structural_risk_0_100) := by
  refine ⟨?_, ?_, ?_⟩
  · intro ms
    unfold accountingConfirmed
    by_cases hms : ms.isEmpty
    · rw [if_pos hms]
      have hnil : ms = [] := List.isEmpty_iff.mp hms
      subst hnil
      simp
    · rw [if_neg hms]
      have hmemS : ∀ m : DocMatch,
          m ∈ ms.filter (fun m => decide (m.strongMatches.length > 0)) ↔
            m ∈ ms ∧ m.strongMatches ≠ [] := by
        intro m
        rw [List.mem_filter]
        constructor
        · rintro ⟨h1, h2⟩
          exact ⟨h1, List.ne_nil_of_length_pos (of_decide_eq_true h2)⟩
        · rintro ⟨h1, h2⟩
          exact ⟨h1, decide_eq_true (List.length_pos.mpr h2)⟩
      by_cases hSe : (ms.filter (fun m => decide (m.strongMatches.length > 0))).isEmpty
      · rw [if_pos hSe]
        have hSnil : ms.filter (fun m => decide (m.strongMatches.length > 0)) = [] :=
          List.isEmpty_iff.mp hSe
        constructor
        · intro h
          exact absurd h (by simp)
        · rintro (⟨m, hm, hstr, -⟩ | ⟨m1, hm1, m2, hm2, hstr, -, -⟩)
          · have hin : m ∈ ms.filter (fun m => decide (m.strongMatches.length > 0)) :=
              (hmemS m).mpr ⟨hm, hstr⟩
            rw [hSnil] at hin
            simp at hin
          · have hin : m1 ∈ ms.filter (fun m => decide (m.strongMatches.length > 0)) :=
              (hmemS m1).mpr ⟨hm1, hstr⟩
            rw [hSnil] at hin
            simp at hin
      · rw [if_neg hSe]
        by_cases hsec : (ms.filter (fun m => decide (m.strongMatches.length > 0))).any
            (fun m => m.doc.source_type == .SEC_FILING)
        · rw [if_pos hsec]
          obtain ⟨m, hmS, hm2⟩ := List.any_eq_true.mp hsec
          have hmm := (hmemS m).mp hmS
          exact ⟨fun _ => Or.inl ⟨m, hmm.1, hmm.2, by simpa using hm2⟩, fun _ => rfl⟩
        · rw [if_neg hsec]
          rw [decide_eq_true_iff, ge_iff_le, two_le_dedup_length_iff]
          constructor
          · rintro ⟨a, ha, b, hb, hab⟩
            obtain ⟨m1, hm1, rfl⟩ := List.mem_map.mp ha
            obtain ⟨m2, hm2, rfl⟩ := List.mem_map.mp hb
            have h1 := (hmemS m1).mp hm1
            have h2 := (hmemS m2).mp hm2
            exact Or.inr ⟨m1, h1.1, m2, h2.1, h1.2, h2.2, hab⟩
          · rintro (⟨m, hm, hstr, hsecm⟩ | ⟨m1, hm1, m2, hm2, hs1, hs2, hne⟩)
            · exfalso
              apply hsec
              exact List.any_eq_true.mpr ⟨m, (hmemS m).mpr ⟨hm, hstr⟩, by simp [hsecm]⟩
            · exact ⟨m1.doc.source_type,
                List.mem_map_of_mem _ ((hmemS m1).mpr ⟨hm1, hs1⟩),
                m2.doc.source_type,
                List.mem_map_of_mem _ ((hmemS m2).mpr ⟨hm2, hs2⟩), hne⟩
  · intro processedDocs params ec hreq hid
    have hneeds : needsConfirmFor params ec = true := by
      unfold needsConfirmFor
      rw [hreq]
      rcases hid with h | h <;> rw [h] <;> rfl
    constructor
    · unfold classSeverityScore downgradeFor
      rw [hneeds, Bool.true_and]
    · unfold classStructuralScore downgradeFor
      rw [hneeds, Bool.true_and]
  · intro decayFn hdecay
    have hb : ∀ (d : NarrativeDoc) (ws : ℚ), d.published_at = "D0" →
        buildProcessedDocs c4Pd decayFn [d] (mergeNarrativeParams c4Opts) ws 0 =
          buildProcessedDocs c4Pd unitDecay [d] (mergeNarrativeParams c4Opts) ws 0 := by
      intro d ws hd
      unfold buildProcessedDocs
      refine List.map_congr_left ?_
      intro a ha
      have haa : a = d := by
        have hf := (List.mem_filter.mp ha).1
        simpa using hf
      subst haa
      congr 1
      unfold getDocWeight unitDecay
      rw [hd]
      rw [show daysBetween 0 ((c4Pd "D0").getD 0) = 0 from by decide]
      rw [show (mergeNarrativeParams c4Opts).recency_half_life_days = 10 from rfl]
      rw [hdecay]
    have h1 : classifyNarrativeShock c4Pd decayFn 0 [c4NewsDoc] c4Opts =
        classifyNarrativeShock c4Pd unitDecay 0 [c4NewsDoc] c4Opts := by
      unfold classifyNarrativeShock
      exact congrArg (fun pdocs => classifyFromProcessed pdocs _ _ _ _)
        (hb c4NewsDoc _ rfl)
    have h2 : classifyNarrativeShock c4Pd decayFn 0 [c4SecDoc] c4Opts =
        classifyNarrativeShock c4Pd unitDecay 0 [c4SecDoc] c4Opts := by
      unfold classifyNarrativeShock
      exact congrArg (fun pdocs => classifyFromProcessed pdocs _ _ _ _)
        (hb c4SecDoc _ rfl)
    rw [h1, h2]
    constructor
    · decide
    · decide

/-- C4 witness: the strict NEWS-versus-SEC comparison applied with the
constant-one decay (the real exponential at age 0). -/
theorem c4_witness :
    (classifyNarrativeShock c4Pd unitDecay 0 [c4NewsDoc] c4Opts).severity_0_100 <
      (classifyNarrativeShock c4Pd unitDecay 0 [c4SecDoc] c4Opts).severity_0_100 :=
  (c4_confirmation_gating.2.2 unitDecay rfl).1

/-! ### C1: total bounds -/

theorem clamp_eq_of_bounds {q lo hi : ℚ} (h1 : lo ≤ q) (h2 : q ≤ hi) : clamp q lo hi = q := by
  unfold clamp
  rw [min_eq_right h2, max_eq_right h1]

theorem clamp_mem {q lo hi : ℚ} (h : lo ≤ hi) :
    lo ≤ clamp q lo hi ∧ clamp q lo hi ≤ hi :=
  ⟨le_max_left _ _, max_le h (min_le_left _ _)⟩

theorem jsRound_nonneg {x : ℚ} (h : 0 ≤ x) : 0 ≤ jsRound x := by
  unfold jsRound
  exact_mod_cast Int.floor_nonneg.mpr (by linarith)

theorem jsRound_le_five {x : ℚ} (h : x < 11/2) : jsRound x ≤ 5 := by
  unfold jsRound
  have : ⌊x + 1/2⌋ < 6 := Int.floor_lt.mpr (by push_cast; linarith)
  exact_mod_cast Int.lt_add_one_iff.mp this

theorem scoreEvToEbitdaPercentile_bounds (p : Option ℚ) :
    0 ≤ (scoreEvToEbitdaPercentile p).1 ∧ (scoreEvToEbitdaPercentile p).1 ≤ 15 := by
  unfold scoreEvToEbitdaPercentile
  rcases p with _ | r
  · norm_num
  · dsimp only
    split_ifs <;> norm_num

theorem scoreEvToEbitdaMedian_bounds (v m : Option ℚ) (bands : MedianBands) :
    0 ≤ (scoreEvToEbitdaMedian v m bands).1 ∧ (scoreEvToEbitdaMedian v m bands).1 ≤ 15 := by
  unfold scoreEvToEbitdaMedian
  rcases v with _ | v <;> rcases m with _ | m <;> try norm_num
  split_ifs <;> norm_num

theorem brsEvScorePair_bounds (pd : String → Option Int) (inputs : BrsInputs) :
    0 ≤ (brsEvScorePair pd inputs).1 ∧ (brsEvScorePair pd inputs).1 ≤ 15 := by
  unfold brsEvScorePair
  split_ifs
  · exact scoreEvToEbitdaMedian_bounds _ _ _
  · exact scoreEvToEbitdaPercentile_bounds _

theorem scoreFcfYield_bounds (v : Option ℚ) :
    0 ≤ scoreFcfYield v ∧ scoreFcfYield v ≤ 10 := by
  unfold scoreFcfYield
  rcases v with _ | v
  · norm_num
  · dsimp only
    split_ifs <;> norm_num

theorem scoreCashConversion_bounds (v : Option ℚ) :
    0 ≤ scoreCashConversion v ∧ scoreCashConversion v ≤ 10 := by
  unfold scoreCashConversion
  rcases v with _ | v
  · norm_num
  · dsimp only
    split_ifs <;> norm_num

theorem scoreFcfConversion_bounds (v : Option ℚ) :
    0 ≤ scoreFcfConversion v ∧ scoreFcfConversion v ≤ 10 := by
  unfold scoreFcfConversion
  rcases v with _ | v
  · norm_num
  · dsimp only
    split_ifs <;> norm_num

theorem brsRoicVsWaccScore_bounds (pd : String → Option Int) (inputs : BrsInputs) :
    0 ≤ brsRoicVsWaccScore pd inputs ∧ brsRoicVsWaccScore pd inputs ≤ 15 := by
  unfold brsRoicVsWaccScore
  rcases brsRoic pd inputs with _ | r <;> rcases (brsWaccProxyPair pd inputs).1 with _ | w <;>
    try norm_num
  split_ifs <;> norm_num

theorem incrementalRoicScoreOf_bounds (g : Option ℚ) :
    0 ≤ incrementalRoicScoreOf g ∧ incrementalRoicScoreOf g ≤ 10 := by
  unfold incrementalRoicScoreOf
  rcases g with _ | g
  · norm_num
  · dsimp only
    split_ifs <;> norm_num

theorem scoreIncrementalRoic_bounds (pd : String → Option Int)
    (roicSeries ebitdaSeries : Option (List SeriesPoint)) :
    0 ≤ (scoreIncrementalRoic pd roicSeries ebitdaSeries).1 ∧
      (scoreIncrementalRoic pd roicSeries ebitdaSeries).1 ≤ 10 := by
  unfold scoreIncrementalRoic
  exact incrementalRoicScoreOf_bounds _

theorem brsNetDebtScore_bounds (pd : String → Option Int) (inputs : BrsInputs) :
    0 ≤ brsNetDebtScore pd inputs ∧ brsNetDebtScore pd inputs ≤ 10 := by
  unfold brsNetDebtScore
  rcases brsNetDebtToEbitda pd inputs with _ | v
  · norm_num
  · dsimp only
    split_ifs <;> norm_num

theorem brsInterestCoverageScore_bounds (pd : String → Option Int) (inputs : BrsInputs) :
    0 ≤ brsInterestCoverageScore pd inputs ∧ brsInterestCoverageScore pd inputs ≤ 5 := by
  unfold brsInterestCoverageScore
  rcases brsInterestCoverage pd inputs with _ | v
  · norm_num
  · dsimp only
    split_ifs <;> norm_num

theorem gmStabilityScoreOf_bounds (config : BrsConfig) (n : Nat) (sl sv : Option ℚ)
    (hm0 : 0 ≤ config.low_history_gm_multiplier)
    (hm1 : config.low_history_gm_multiplier ≤ 1) :
    0 ≤ (gmStabilityScoreOf config n sl sv).1 ∧
      (gmStabilityScoreOf config n sl sv).1 ≤ 5 := by
  unfold gmStabilityScoreOf
  rcases sl with _ | s
  · norm_num
  rcases sv with _ | v
  · norm_num
  dsimp only
  split_ifs with h8 hst hst
  · exact ⟨jsRound_nonneg (by nlinarith), jsRound_le_five (by nlinarith)⟩
  · exact ⟨jsRound_nonneg (by nlinarith), jsRound_le_five (by nlinarith)⟩
  · norm_num
  · norm_num

theorem scoreGrossMarginStability_bounds (gmSeries : List ℚ) (config : BrsConfig)
    (hm0 : 0 ≤ config.low_history_gm_multiplier)
    (hm1 : config.low_history_gm_multiplier ≤ 1) :
    0 ≤ (scoreGrossMarginStability gmSeries config).1 ∧
      (scoreGrossMarginStability gmSeries config).1 ≤ 5 := by
  unfold scoreGrossMarginStability
  split_ifs with h4
  · norm_num
  · exact gmStabilityScoreOf_bounds _ _ _ _ hm0 hm1

theorem brsShareholderYieldPair_bounds (pd : String → Option Int) (inputs : BrsInputs) :
    0 ≤ (brsShareholderYieldPair pd inputs).1 ∧ (brsShareholderYieldPair pd inputs).1 ≤ 5 := by
  unfold brsShareholderYieldPair
  rcases brsDividendsTtm pd inputs with _ | d <;>
    rcases brsBuybacksTtm pd inputs with _ | b <;>
      rcases brsMarketCap pd inputs with _ | mc <;>
        try norm_num
  split_ifs <;> norm_num

theorem brsSbcToFcfPair_bounds (pd : String → Option Int) (inputs : BrsInputs) :
    0 ≤ (brsSbcToFcfPair pd inputs).1 ∧ (brsSbcToFcfPair pd inputs).1 ≤ 5 := by
  unfold brsSbcToFcfPair
  rcases brsSbcTtm pd inputs with _ | sbc <;>
    rcases brsFcfTtm pd inputs with _ | fcf <;>
      try norm_num
  split_ifs <;> norm_num

/-- C1 counterexample: with the config override
`low_history_gm_multiplier = 1000` the BRS total (which the code does not
clamp) reaches 5000, leaving [0, 100]. -/
theorem c1_counterexample :
    (computeBrs exPd c1BadInputs).scores.total = 5000 ∧
    ¬ ((computeBrs exPd c1BadInputs).scores.total ≤ 100) := by
  refine ⟨by decide, by decide⟩

/-- C1 amended: for every input whose merged config keeps
`low_history_gm_multiplier` within [0, 1] (the default is 0.5),
`computeBrs` returns a total in [0, 100] that is the plain (unclamped) sum
of the five sub-dimension scores and hence coincides with that sum clamped
to [0, 100]; `computeMdsFromSeries` always returns a total in [0, 100] that
is the clamped sum of its five sub-dimension scores. -/
theorem c1_totals_bounded :
    (∀ (pd : String → Option Int) (inputs : BrsInputs),
      0 ≤ (mergeBrsConfig inputs.config).low_history_gm_multiplier →
      (mergeBrsConfig inputs.config).low_history_gm_multiplier ≤ 1 →
      (0 ≤ (computeBrs pd inputs).scores.total ∧
       (computeBrs pd inputs).scores.total ≤ 100 ∧
       (computeBrs pd inputs).scores.total =
         (computeBrs pd inputs).scores.valuation_sanity +
           (computeBrs pd inputs).scores.cash_truth_quality +
           (computeBrs pd inputs).scores.capital_efficiency +
           (computeBrs pd inputs).scores.balance_sheet_risk +
           (computeBrs pd inputs).scores.durability_alignment ∧
       (computeBrs pd inputs).scores.total =
         clamp ((computeBrs pd inputs).scores.valuation_sanity +
           (computeBrs pd inputs).scores.cash_truth_quality +
           (computeBrs pd inputs).scores.capital_efficiency +
           (computeBrs pd inputs).scores.balance_sheet_risk +
           (computeBrs pd inputs).scores.durability_alignment) 0 100)) ∧
    (∀ (pd : String → Option Int) (decayFn : ℚ → ℚ → ℚ) (nowMs : Int)
        (inputs : MdsSeriesInputs),
      0 ≤ (computeMdsFromSeries pd decayFn nowMs inputs).total_mds_points ∧
      (computeMdsFromSeries pd decayFn nowMs inputs).total_mds_points ≤ 100 ∧
      (computeMdsFromSeries pd decayFn nowMs inputs).total_mds_points =
        clamp ((computeMdsFromSeries pd decayFn nowMs inputs).multiple_compression_points +
          (computeMdsFromSeries pd decayFn nowMs inputs).expectation_reset_points +
          (computeMdsFromSeries pd decayFn nowMs inputs).narrative_shock_points +
          (computeMdsFromSeries pd decayFn nowMs inputs).operating_resilience_points +
          (computeMdsFromSeries pd decayFn nowMs inputs).market_positioning_points) 0 100) := by
  constructor
  · intro pd inputs hm0 hm1
    have h1 := brsEvScorePair_bounds pd inputs
    have h2 := scoreFcfYield_bounds (brsFcfYield pd inputs)
    have h3 := scoreCashConversion_bounds (brsCashConversion pd inputs)
    have h4 := scoreFcfConversion_bounds (brsFcfConversion pd inputs)
    have h5 := brsRoicVsWaccScore_bounds pd inputs
    have h6 : 0 ≤ (brsIncrementalRoicPair pd inputs).1 ∧
        (brsIncrementalRoicPair pd inputs).1 ≤ 10 := by
      unfold brsIncrementalRoicPair
      exact scoreIncrementalRoic_bounds pd _ _
    have h7 := brsNetDebtScore_bounds pd inputs
    have h8 := brsInterestCoverageScore_bounds pd inputs
    have h9 : 0 ≤ (brsGrossMarginPair pd inputs).1 ∧
        (brsGrossMarginPair pd inputs).1 ≤ 5 := by
      unfold brsGrossMarginPair
      exact scoreGrossMarginStability_bounds (brsGmSeries pd inputs)
        (mergeBrsConfig inputs.config) hm0 hm1
    have h10 := brsShareholderYieldPair_bounds pd inputs
    have h11 := brsSbcToFcfPair_bounds pd inputs
    have hlo : 0 ≤ (computeBrs pd inputs).scores.total := by
      show 0 ≤ ((brsEvScorePair pd inputs).1 + scoreFcfYield (brsFcfYield pd inputs)) +
        (scoreCashConversion (brsCashConversion pd inputs) +
          scoreFcfConversion (brsFcfConversion pd inputs)) +
        (brsRoicVsWaccScore pd inputs + (brsIncrementalRoicPair pd inputs).1) +
        (brsNetDebtScore pd inputs + brsInterestCoverageScore pd inputs) +
        ((brsGrossMarginPair pd inputs).1 + (brsShareholderYieldPair pd inputs).1 +
          (brsSbcToFcfPair pd inputs).1)
      linarith [h1.1, h2.1, h3.1, h4.1, h5.1, h6.1, h7.1, h8.1, h9.1, h10.1, h11.1]
    have hhi : (computeBrs pd inputs).scores.total ≤ 100 := by
      show ((brsEvScorePair pd inputs).1 + scoreFcfYield (brsFcfYield pd inputs)) +
        (scoreCashConversion (brsCashConversion pd inputs) +
          scoreFcfConversion (brsFcfConversion pd inputs)) +
        (brsRoicVsWaccScore pd inputs + (brsIncrementalRoicPair pd inputs).1) +
        (brsNetDebtScore pd inputs + brsInterestCoverageScore pd inputs) +
        ((brsGrossMarginPair pd inputs).1 + (brsShareholderYieldPair pd inputs).1 +
          (brsSbcToFcfPair pd inputs).1) ≤ 100
      linarith [h1.2, h2.2, h3.2, h4.2, h5.2, h6.2, h7.2, h8.2, h9.2, h10.2, h11.2]
    refine ⟨hlo, hhi, rfl, ?_⟩
    exact (clamp_eq_of_bounds hlo hhi).symm
  · intro pd decayFn nowMs inputs
    refine ⟨(clamp_mem (by norm_num)).1, (clamp_mem (by norm_num)).2, ?_⟩
    show clamp (mdsMultipleCompressionPoints pd inputs +
        ((mdsExpectationResetPair pd inputs).1 + (mdsNarrativeTriple pd decayFn nowMs inputs).1) +
        mdsOperatingResilience pd inputs + mdsMarketPositioning pd nowMs inputs) 0 100 =
      clamp (mdsMultipleCompressionPoints pd inputs + (mdsExpectationResetPair pd inputs).1 +
        (mdsNarrativeTriple pd decayFn nowMs inputs).1 + mdsOperatingResilience pd inputs +
        mdsMarketPositioning pd nowMs inputs) 0 100
    rw [show mdsMultipleCompressionPoints pd inputs +
        ((mdsExpectationResetPair pd inputs).1 + (mdsNarrativeTriple pd decayFn nowMs inputs).1) +
        mdsOperatingResilience pd inputs + mdsMarketPositioning pd nowMs inputs =
      mdsMultipleCompressionPoints pd inputs + (mdsExpectationResetPair pd inputs).1 +
        (mdsNarrativeTriple pd decayFn nowMs inputs).1 + mdsOperatingResilience pd inputs +
        mdsMarketPositioning pd nowMs inputs from by ring]

/-- C1 witness: the amended bounds applied at concrete BRS and MDS inputs. -/
theorem c1_witness :
    (0 ≤ (computeBrs exPd c10Inputs).scores.total ∧
      (computeBrs exPd c10Inputs).scores.total ≤ 100) ∧
    (0 ≤ (computeMdsFromSeries pdNone unitDecay 0 (c3InputsAt (1/4))).total_mds_points ∧
      (computeMdsFromSeries pdNone unitDecay 0 (c3InputsAt (1/4))).total_mds_points ≤ 100) := by
  have hb := c1_totals_bounded.1 exPd c10Inputs (by decide) (by decide)
  have hm := c1_totals_bounded.2 pdNone unitDecay 0 (c3InputsAt (1/4))
  exact ⟨⟨hb.1, hb.2.1⟩, ⟨hm.1, hm.2.1⟩⟩

end Dexter
